import Mathlib

/-!
Effective configuration of the legacy `old/configuration` package.

A shallow embedding of `old/configuration/configuration.go`.

Conventions of the embedding

* A Go pointer that the code tests against `nil` is an `Option`; a struct value is a structure.
* The values of the `EntryPoints` map are pointers that the code dereferences without a test
  (the loaders always allocate them), so the map is embedded as a list of name/entry-point pairs
  holding the entry points themselves. A key missing from the map is inserted at the end of the
  list; the Go map has no order and no function of the file depends on one.
* Go strings are embedded as `String`. The only string functions used (`strings.HasPrefix`,
  `strings.Replace` with count 1, `strings.Split` and `strings.Join` on ",") are applied with
  ASCII patterns and are defined on the character list.
* `float64` fields are only stored and copied, never computed with; they are embedded as `Rat`.
* Logging (`log.Warn`, `log.Infof`) is not part of the state and is left out. `log.Fatalf`
  ends the process and is embedded as an `Except.error`.
-/

namespace Configuration

/-! ## Constants -/

/-- Source constant `DefaultInternalEntryPointName`. -/
def DefaultInternalEntryPointName : String := "traefik"

/-- Source constant `DefaultAcmeCAServer`. -/
def DefaultAcmeCAServer : String := "https://acme-v02.api.letsencrypt.org/directory"

/-! ## Types declared outside the file -/

/-- Modelled from the spec: the content of a sub-configuration declared by another package
(providers, log settings, constraints, root CAs), which no function of the file reads or
writes. Only its identity matters. -/
structure Foreign where
  content : String
deriving DecidableEq

/-- Modelled from the spec: `tls.Certificate`, one certificate of an entry point's list. -/
structure Certificate where
  CertFile : String
  KeyFile : String
deriving DecidableEq

/-- Modelled from the spec: `tls.TLS`, the TLS settings of an entry point (certificate list and
designated default certificate). -/
structure TLS where
  Certificates : List Certificate := []
  DefaultCertificate : Option Certificate := none
deriving DecidableEq

/-- Modelled from the spec: `ForwardedHeaders`, the forwarded-headers policy of an entry point.
The Go zero value `ForwardedHeaders{}` is the empty policy. -/
structure ForwardedHeaders where
  Insecure : Bool := false
  TrustedIPs : List String := []
deriving DecidableEq

/-- Modelled from the spec: `EntryPoint`, `{address, TLS?, forwardedHeaders?, redirect?}`. -/
structure EntryPoint where
  Address : String := ""
  TLS : Option TLS := none
  Redirect : Option Foreign := none
  ForwardedHeaders : Option ForwardedHeaders := none
deriving DecidableEq

/-- Modelled from the spec: `EntryPoints`, the Go type `map[string]*EntryPoint`. -/
abbrev EntryPoints := List (String × EntryPoint)

/-- Modelled from the spec: `types.Domain`, a primary name and its alternative names. -/
structure Domain where
  Main : String
  SANs : List String
deriving DecidableEq

/-- Modelled from the spec: `acmeprovider.HTTPChallenge`, `httpChallenge?{entryPoint}`. -/
structure HTTPChallenge where
  EntryPoint : String := ""
deriving DecidableEq

/-- Modelled from the spec: `acmeprovider.DNSChallenge`, `dnsChallenge?{provider,
delayBeforeCheck}`; the delay is a `parse.Duration`, a 64-bit integer. -/
structure DNSChallenge where
  Provider : String := ""
  DelayBeforeCheck : Int := 0
deriving DecidableEq

/-- Modelled from the spec: `acmeprovider.TLSChallenge`, the empty marker `tlsChallenge?{}`. -/
structure TLSChallenge where
deriving DecidableEq

/-- Modelled from the spec: `acme.ACME`, the legacy ACME block. -/
structure ACME where
  Email : String := ""
  Domains : List Domain := []
  Storage : String := ""
  OnDemand : Bool := false
  OnHostRule : Bool := false
  CAServer : String := ""
  EntryPoint : String := ""
  KeyType : String := ""
  DNSChallenge : Option DNSChallenge := none
  HTTPChallenge : Option HTTPChallenge := none
  TLSChallenge : Option TLSChallenge := none
  ACMELogging : Bool := false
deriving DecidableEq

/-- Modelled from the spec: `acmeprovider.Configuration`, the current-shape ACME
configuration. -/
structure ProviderConfiguration where
  Email : String := ""
  ACMELogging : Bool := false
  CAServer : String := ""
  Storage : String := ""
  EntryPoint : String := ""
  KeyType : String := ""
  OnHostRule : Bool := false
  DNSChallenge : Option DNSChallenge := none
  HTTPChallenge : Option HTTPChallenge := none
  TLSChallenge : Option TLSChallenge := none
  Domains : List Domain := []
deriving DecidableEq

/-- Modelled from the spec: the value of `acmeprovider.NewLocalStore`, a storage backend bound
to the storage location. -/
structure LocalStore where
  filename : String
deriving DecidableEq

/-- Modelled from the spec: `acmeprovider.Provider`, the embedded configuration and the
store. -/
structure Provider where
  Configuration : ProviderConfiguration
  Store : LocalStore
deriving DecidableEq

/-- Modelled from the spec: `jaeger.Config`. -/
structure JaegerConfig where
  SamplingServerURL : String
  SamplingType : String
  SamplingParam : Rat
  LocalAgentHostPort : String
  Gen128Bit : Bool
  Propagation : String
deriving DecidableEq

/-- Modelled from the spec: `zipkin.Config`. -/
structure ZipkinConfig where
  HTTPEndpoint : String
  SameSpan : Bool
  ID128Bit : Bool
  Debug : Bool
  SampleRate : Rat
deriving DecidableEq

/-- Modelled from the spec: `datadog.Config`. -/
structure DataDogConfig where
  LocalAgentHostPort : String
  GlobalTag : String
  Debug : Bool
  PrioritySampling : Bool
deriving DecidableEq

/-- Modelled from the spec: the constant `jaeger.Name`. -/
def jaegerName : String := "jaeger"

/-- Modelled from the spec: the constant `zipkin.Name`. -/
def zipkinName : String := "zipkin"

/-- Modelled from the spec: the constant `datadog.Name`. -/
def datadogName : String := "datadog"

/-- Modelled from the spec: `tracing.Tracing`, `{backend, jaeger?, zipkin?, datadog?}`. -/
structure Tracing where
  Backend : String := ""
  Jaeger : Option JaegerConfig := none
  Zipkin : Option ZipkinConfig := none
  DataDog : Option DataDogConfig := none
deriving DecidableEq

/-- Modelled from the spec: `rancher.APIConfiguration`, the nested credential object. -/
structure RancherAPIConfiguration where
  Endpoint : String := ""
  AccessKey : String := ""
  SecretKey : String := ""
deriving DecidableEq

/-- Modelled from the spec: `rancher.MetadataConfiguration`, the metadata sub-object. -/
structure RancherMetadataConfiguration where
  IntervalPoll : Bool := false
  Prefix : String := ""
deriving DecidableEq

/-- Modelled from the spec: `rancher.Provider`, the legacy cluster-metadata provider block. -/
structure RancherProvider where
  Endpoint : String := ""
  AccessKey : String := ""
  SecretKey : String := ""
  API : Option RancherAPIConfiguration := none
  Metadata : Option RancherMetadataConfiguration := none
deriving DecidableEq

/-- Modelled from the spec: `api.Handler`, the administrative API. -/
structure APIHandler where
  EntryPoint : String := ""
  Dashboard : Bool := false
  Debug : Bool := false
deriving DecidableEq

/-- Modelled from the spec: `ping.Handler`, the ping handler. -/
structure PingHandler where
  EntryPoint : String := ""
deriving DecidableEq

/-- Modelled from the spec: `types.Prometheus`, the Prometheus metrics block. -/
structure Prometheus where
  EntryPoint : String := ""
deriving DecidableEq

/-- Modelled from the spec: `types.Metrics`. -/
structure Metrics where
  Prometheus : Option Prometheus := none
deriving DecidableEq

/-- Modelled from the spec: `rest.Provider`, the REST provider. -/
structure RestProvider where
  EntryPoint : String := ""
deriving DecidableEq

/-- Modelled from the spec: `file.Provider`, the file provider with its own path field. -/
structure FileProvider where
  Directory : String := ""
  TraefikFile : String := ""
deriving DecidableEq

/-! ## Types declared in the file -/

/-- Source type `DefaultEntryPoints`. -/
abbrev DefaultEntryPoints := List String

/-- Source type `Retry`. -/
structure Retry where
  Attempts : Int := 0
deriving DecidableEq

/-- Source type `HealthCheckConfig`. -/
structure HealthCheckConfig where
  Interval : Int := 0
  Timeout : Int := 0
deriving DecidableEq

/-- Source type `RespondingTimeouts`. -/
structure RespondingTimeouts where
  ReadTimeout : Int := 0
  WriteTimeout : Int := 0
  IdleTimeout : Int := 0
deriving DecidableEq

/-- Source type `ForwardingTimeouts`. -/
structure ForwardingTimeouts where
  DialTimeout : Int := 0
  ResponseHeaderTimeout : Int := 0
deriving DecidableEq

/-- Source type `LifeCycle`. -/
structure LifeCycle where
  RequestAcceptGraceTimeout : Int := 0
  GraceTimeOut : Int := 0
deriving DecidableEq

/-- Source type `HostResolverConfig`. -/
structure HostResolverConfig where
  CnameFlattening : Bool := false
  ResolvConfig : String := ""
  ResolvDepth : Int := 0
deriving DecidableEq

/-- Source type `GlobalConfiguration`, field by field. -/
structure GlobalConfiguration where
  LifeCycle : Option LifeCycle := none
  Debug : Bool := false
  CheckNewVersion : Bool := false
  SendAnonymousUsage : Bool := false
  AccessLog : Option Foreign := none
  TraefikLog : Option Foreign := none
  Tracing : Option Tracing := none
  LogLevel : String := ""
  EntryPoints : EntryPoints := []
  Cluster : Option Foreign := none
  Constraints : List Foreign := []
  ACME : Option ACME := none
  DefaultEntryPoints : DefaultEntryPoints := []
  ProvidersThrottleDuration : Int := 0
  MaxIdleConnsPerHost : Int := 0
  InsecureSkipVerify : Bool := false
  RootCAs : List String := []
  Retry : Option Retry := none
  HealthCheck : Option HealthCheckConfig := none
  RespondingTimeouts : Option RespondingTimeouts := none
  ForwardingTimeouts : Option ForwardingTimeouts := none
  KeepTrailingSlash : Bool := false
  Docker : Option Foreign := none
  File : Option FileProvider := none
  Consul : Option Foreign := none
  ConsulCatalog : Option Foreign := none
  Etcd : Option Foreign := none
  Zookeeper : Option Foreign := none
  Boltdb : Option Foreign := none
  Kubernetes : Option Foreign := none
  Mesos : Option Foreign := none
  Eureka : Option Foreign := none
  ECS : Option Foreign := none
  Rancher : Option RancherProvider := none
  DynamoDB : Option Foreign := none
  Rest : Option RestProvider := none
  API : Option APIHandler := none
  Metrics : Option Metrics := none
  Ping : Option PingHandler := none
  HostResolver : Option HostResolverConfig := none
deriving DecidableEq

/-! ## String helpers -/

/-- Go `strings.HasPrefix` on character lists. -/
def hasPrefix : List Char → List Char → Bool
  | _, [] => true
  | [], _ :: _ => false
  | c :: cs, p :: ps => c == p && hasPrefix cs ps

/-- Go `strings.Replace(s, old, new, 1)` on character lists: the first occurrence of `old` in
`s`, if there is one, is replaced by `new`. -/
def replaceFirst (old new : List Char) : List Char → List Char
  | [] => if hasPrefix [] old then new else []
  | c :: cs =>
    if hasPrefix (c :: cs) old then new ++ (c :: cs).drop old.length
    else c :: replaceFirst old new cs

/-! ## Functions of the file -/

/-- Source function `getSafeACMECAServer`. -/
def getSafeACMECAServer (caServerSrc : String) : String :=
  if caServerSrc.length = 0 then
    DefaultAcmeCAServer
  else if hasPrefix caServerSrc.data "https://acme-v01.api.letsencrypt.org".data then
    String.mk (replaceFirst "v01".data "v02".data caServerSrc.data)
  else if hasPrefix caServerSrc.data "https://acme-staging.api.letsencrypt.org".data then
    String.mk (replaceFirst "https://acme-staging.api.letsencrypt.org".data
      "https://acme-staging-v02.api.letsencrypt.org".data caServerSrc.data)
  else
    caServerSrc

/-- Source function `initACMEProvider`: the CA server is normalised, then the three pairwise
challenge checks run in the order of the source. -/
def initACMEProvider (gc : GlobalConfiguration) : GlobalConfiguration :=
  match gc.ACME with
  | none => gc
  | some acme =>
    let acme := { acme with CAServer := getSafeACMECAServer acme.CAServer }
    let acme :=
      if acme.DNSChallenge.isSome && acme.HTTPChallenge.isSome then
        { acme with HTTPChallenge := none }
      else acme
    let acme :=
      if acme.DNSChallenge.isSome && acme.TLSChallenge.isSome then
        { acme with TLSChallenge := none }
      else acme
    let acme :=
      if acme.HTTPChallenge.isSome && acme.TLSChallenge.isSome then
        { acme with HTTPChallenge := none }
      else acme
    { gc with ACME := some acme }

/-- The built-in Jaeger settings of `initTracing`. -/
def defaultJaeger : JaegerConfig :=
  { SamplingServerURL := "http://localhost:5778/sampling"
    SamplingType := "const"
    SamplingParam := 1
    LocalAgentHostPort := "127.0.0.1:6831"
    Propagation := "jaeger"
    Gen128Bit := false }

/-- The built-in Zipkin settings of `initTracing`. -/
def defaultZipkin : ZipkinConfig :=
  { HTTPEndpoint := "http://localhost:9411/api/v1/spans"
    SameSpan := false
    ID128Bit := true
    Debug := false
    SampleRate := 1 }

/-- The built-in DataDog settings of `initTracing`. -/
def defaultDataDog : DataDogConfig :=
  { LocalAgentHostPort := "localhost:8126"
    GlobalTag := ""
    Debug := false
    PrioritySampling := false }

/-- Source function `initTracing`: a `switch` on the backend selector. -/
def initTracing (gc : GlobalConfiguration) : GlobalConfiguration :=
  match gc.Tracing with
  | none => gc
  | some t =>
    if t.Backend = jaegerName then
      let t := match t.Jaeger with
        | none => { t with Jaeger := some defaultJaeger }
        | some _ => t
      let t := if t.Zipkin.isSome then { t with Zipkin := none } else t
      let t := if t.DataDog.isSome then { t with DataDog := none } else t
      { gc with Tracing := some t }
    else if t.Backend = zipkinName then
      let t := match t.Zipkin with
        | none => { t with Zipkin := some defaultZipkin }
        | some _ => t
      let t := if t.Jaeger.isSome then { t with Jaeger := none } else t
      let t := if t.DataDog.isSome then { t with DataDog := none } else t
      { gc with Tracing := some t }
    else if t.Backend = datadogName then
      let t := match t.DataDog with
        | none => { t with DataDog := some defaultDataDog }
        | some _ => t
      let t := if t.Zipkin.isSome then { t with Zipkin := none } else t
      let t := if t.Jaeger.isSome then { t with Jaeger := none } else t
      { gc with Tracing := some t }
    else
      gc

/-- First block of `SetEffectiveConfiguration`: with no entry point configured, the entry
point `http` is synthesized and becomes the only default entry point. -/
def defaultHTTPEntryPoint (gc : GlobalConfiguration) : GlobalConfiguration :=
  if gc.EntryPoints.length = 0 then
    { gc with
      EntryPoints := [("http", { Address := ":80", ForwardedHeaders := some {} })]
      DefaultEntryPoints := ["http"] }
  else gc

/-- The condition of the second block of `SetEffectiveConfiguration`: one of the API, the ping
handler, the Prometheus metrics or the REST provider refers to the internal entry point. -/
def refersToInternalEntryPoint (gc : GlobalConfiguration) : Bool :=
  (match gc.API with
    | some api => api.EntryPoint == DefaultInternalEntryPointName
    | none => false) ||
  (match gc.Ping with
    | some ping => ping.EntryPoint == DefaultInternalEntryPointName
    | none => false) ||
  (match gc.Metrics with
    | some m =>
      (match m.Prometheus with
        | some p => p.EntryPoint == DefaultInternalEntryPointName
        | none => false)
    | none => false) ||
  (match gc.Rest with
    | some rest => rest.EntryPoint == DefaultInternalEntryPointName
    | none => false)

/-- Second block of `SetEffectiveConfiguration`: the internal entry point is added when it is
referred to and missing. -/
def defaultInternalEntryPoint (gc : GlobalConfiguration) : GlobalConfiguration :=
  if refersToInternalEntryPoint gc then
    match gc.EntryPoints.lookup DefaultInternalEntryPointName with
    | some _ => gc
    | none =>
      { gc with
        EntryPoints := gc.EntryPoints ++ [(DefaultInternalEntryPointName, { Address := ":8080" })] }
  else gc

/-- Body of the loop of `SetEffectiveConfiguration` over the entry points. -/
def setEntryPointDefaults (entryPoint : EntryPoint) : EntryPoint :=
  let entryPoint :=
    match entryPoint.ForwardedHeaders with
    | none => { entryPoint with ForwardedHeaders := some {} }
    | some _ => entryPoint
  match entryPoint.TLS with
  | none => entryPoint
  | some tls =>
    match tls.DefaultCertificate, tls.Certificates with
    | none, first :: _ =>
      { entryPoint with TLS := some { tls with DefaultCertificate := some first } }
    | _, _ => entryPoint

/-- Rancher block of `SetEffectiveConfiguration`. -/
def setRancherDefaults (r : RancherProvider) : RancherProvider :=
  let r :=
    if r.AccessKey.length > 0 || r.Endpoint.length > 0 || r.SecretKey.length > 0 then
      match r.API with
      | none =>
        { r with API := some { AccessKey := r.AccessKey, SecretKey := r.SecretKey,
                                Endpoint := r.Endpoint } }
      | some _ => r
    else r
  match r.Metadata with
  | some m =>
    if m.Prefix.length = 0 then { r with Metadata := some { m with Prefix := "latest" } }
    else r
  | none => r

/-- Loop of `SetEffectiveConfiguration` over the entry points: the body is applied to the entry
point of every name. -/
def setEntryPointsDefaults (gc : GlobalConfiguration) : GlobalConfiguration :=
  { gc with
    EntryPoints :=
      gc.EntryPoints.map (fun (e : String × EntryPoint) => (e.1, setEntryPointDefaults e.2)) }

/-- Life-cycle block of `SetEffectiveConfiguration`. -/
def defaultLifeCycle (gc : GlobalConfiguration) : GlobalConfiguration :=
  match gc.LifeCycle with
  | none => { gc with LifeCycle := some {} }
  | some _ => gc

/-- Rancher block of `SetEffectiveConfiguration`, on the aggregate. -/
def rancherCompat (gc : GlobalConfiguration) : GlobalConfiguration :=
  match gc.Rancher with
  | some r => { gc with Rancher := some (setRancherDefaults r) }
  | none => gc

/-- API block of `SetEffectiveConfiguration`: the debug flag is copied into the API. -/
def propagateDebug (gc : GlobalConfiguration) : GlobalConfiguration :=
  match gc.API with
  | some api => { gc with API := some { api with Debug := gc.Debug } }
  | none => gc

/-- File block of `SetEffectiveConfiguration`: the path of the configuration file is copied
into the file provider. -/
def propagateConfigFile (gc : GlobalConfiguration) (configFile : String) : GlobalConfiguration :=
  match gc.File with
  | some file => { gc with File := some { file with TraefikFile := configFile } }
  | none => gc

/-- Source function `SetEffectiveConfiguration`: its blocks in the order of the source. -/
def SetEffectiveConfiguration (gc : GlobalConfiguration) (configFile : String) :
    GlobalConfiguration :=
  let gc := defaultHTTPEntryPoint gc
  let gc := defaultInternalEntryPoint gc
  let gc := setEntryPointsDefaults gc
  let gc := defaultLifeCycle gc
  let gc := rancherCompat gc
  let gc := propagateDebug gc
  let gc := propagateConfigFile gc configFile
  let gc := initACMEProvider gc
  initTracing gc

/-- Source function `convertACMEChallenge`. The trailing-dot test of the domain loop only
logs; every domain is appended as it is. -/
def convertACMEChallenge (oldACMEChallenge : ACME) : ProviderConfiguration :=
  let conf : ProviderConfiguration :=
    { KeyType := oldACMEChallenge.KeyType
      OnHostRule := oldACMEChallenge.OnHostRule
      Email := oldACMEChallenge.Email
      Storage := oldACMEChallenge.Storage
      ACMELogging := oldACMEChallenge.ACMELogging
      CAServer := oldACMEChallenge.CAServer
      EntryPoint := oldACMEChallenge.EntryPoint }
  let conf :=
    oldACMEChallenge.Domains.foldl (fun c domain => { c with Domains := c.Domains ++ [domain] }) conf
  let conf :=
    match oldACMEChallenge.HTTPChallenge with
    | some h => { conf with HTTPChallenge := some { EntryPoint := h.EntryPoint } }
    | none => conf
  let conf :=
    match oldACMEChallenge.DNSChallenge with
    | some d =>
      { conf with
        DNSChallenge := some { Provider := d.Provider, DelayBeforeCheck := d.DelayBeforeCheck } }
    | none => conf
  match oldACMEChallenge.TLSChallenge with
  | some _ => { conf with TLSChallenge := some {} }
  | none => conf

/-- Source function `InitACMEProvider`: the returned provider, the returned error and the
aggregate after the call. The on-disk upgrade `acme.ConvertToNewFormat` is outside the state. -/
def InitACMEProvider (gc : GlobalConfiguration) :
    Option Provider × Option String × GlobalConfiguration :=
  match gc.ACME with
  | some acme =>
    if acme.Storage.length = 0 then
      (none,
        some "unable to initialize ACME provider with no storage location for the certificates",
        { gc with ACME := none })
    else
      match gc.Cluster with
      | none =>
        let conf := convertACMEChallenge acme
        (some { Configuration := conf, Store := { filename := conf.Storage } }, none,
          { gc with ACME := none })
      | some _ => (none, none, gc)
  | none => (none, none, gc)

/-- The two calls of `log.Fatalf` in `ValidateConfiguration`, each with the entry-point name it
reports. -/
inductive Fatal where
  /-- The message `Unknown entrypoint %q for ACME configuration`. -/
  | unknownEntryPoint (name : String)
  /-- The message `Entrypoint %q has no TLS configuration for ACME configuration`. -/
  | entryPointWithoutTLS (name : String)
deriving DecidableEq

/-- Source function `ValidateConfiguration`: a call of `log.Fatalf` is the error result. -/
def ValidateConfiguration (gc : GlobalConfiguration) : Except Fatal Unit :=
  match gc.ACME with
  | some acme =>
    match gc.EntryPoints.lookup acme.EntryPoint with
    | none => .error (.unknownEntryPoint acme.EntryPoint)
    | some entryPoint =>
      match entryPoint.TLS with
      | none => .error (.entryPointWithoutTLS acme.EntryPoint)
      | some _ => .ok ()
  | none => .ok ()

/-! ## Notions used in the statements -/

/-- Number of challenges of a legacy ACME block that are set. -/
def ACME.activeChallenges (a : ACME) : Nat :=
  (if a.HTTPChallenge.isSome then 1 else 0) + (if a.DNSChallenge.isSome then 1 else 0) +
    (if a.TLSChallenge.isSome then 1 else 0)

/-- Number of challenges of a provider configuration that are set. -/
def ProviderConfiguration.activeChallenges (c : ProviderConfiguration) : Nat :=
  (if c.HTTPChallenge.isSome then 1 else 0) + (if c.DNSChallenge.isSome then 1 else 0) +
    (if c.TLSChallenge.isSome then 1 else 0)

/-- Number of backend sub-configurations of a tracing block that are set. -/
def Tracing.activeBackends (t : Tracing) : Nat :=
  (if t.Jaeger.isSome then 1 else 0) + (if t.Zipkin.isSome then 1 else 0) +
    (if t.DataDog.isSome then 1 else 0)

/-- The legacy ACME block after `initACMEProvider`. -/
def resolveACME (acme : ACME) : ACME :=
  let acme := { acme with CAServer := getSafeACMECAServer acme.CAServer }
  let acme :=
    if acme.DNSChallenge.isSome && acme.HTTPChallenge.isSome then
      { acme with HTTPChallenge := none }
    else acme
  let acme :=
    if acme.DNSChallenge.isSome && acme.TLSChallenge.isSome then
      { acme with TLSChallenge := none }
    else acme
  if acme.HTTPChallenge.isSome && acme.TLSChallenge.isSome then
    { acme with HTTPChallenge := none }
  else acme

/-- The tracing block after `initTracing`. -/
def resolveTracing (t : Tracing) : Tracing :=
  if t.Backend = jaegerName then
    { t with Jaeger := some (t.Jaeger.getD defaultJaeger), Zipkin := none, DataDog := none }
  else if t.Backend = zipkinName then
    { t with Zipkin := some (t.Zipkin.getD defaultZipkin), Jaeger := none, DataDog := none }
  else if t.Backend = datadogName then
    { t with DataDog := some (t.DataDog.getD defaultDataDog), Jaeger := none, Zipkin := none }
  else t

/-- The entry point `http` synthesized by `SetEffectiveConfiguration`, before the loop. -/
def httpEntryPoint : EntryPoint := { Address := ":80", ForwardedHeaders := some {} }

/-- The internal entry point synthesized by `SetEffectiveConfiguration`, before the loop. -/
def internalEntryPoint : EntryPoint := { Address := ":8080" }

/-- The entry-point set after the first two blocks of `SetEffectiveConfiguration`, given
whether the internal entry point is referred to. -/
def withSynthesized (internal : Bool) (eps : EntryPoints) : EntryPoints :=
  let eps := if eps.length = 0 then [("http", httpEntryPoint)] else eps
  if internal then
    match eps.lookup DefaultInternalEntryPointName with
    | some _ => eps
    | none => eps ++ [(DefaultInternalEntryPointName, internalEntryPoint)]
  else eps

/-- The entry-point set after `SetEffectiveConfiguration`, given whether the internal entry
point is referred to. -/
def entryPointsAfter (internal : Bool) (eps : EntryPoints) : EntryPoints :=
  (withSynthesized internal eps).map
    (fun (e : String × EntryPoint) => (e.1, setEntryPointDefaults e.2))

/-- A legacy ACME block with a DNS and an HTTP challenge. -/
def acmeDNSHTTP : ACME :=
  { Storage := "acme.json", EntryPoint := "https"
    DNSChallenge := some { Provider := "route53", DelayBeforeCheck := 5 }
    HTTPChallenge := some { EntryPoint := "http" } }

/-- A legacy ACME block with an HTTP and a TLS challenge and no DNS challenge. -/
def acmeHTTPTLS : ACME :=
  { Storage := "acme.json", EntryPoint := "https"
    HTTPChallenge := some { EntryPoint := "http" }
    TLSChallenge := some {} }

/-- A legacy ACME block with a storage location and no challenge. -/
def acmeNoChallenge : ACME := { Storage := "acme.json", EntryPoint := "https" }

/-- A tracing block that selects Jaeger and carries Zipkin and DataDog settings. -/
def tracingJaegerWithOthers : Tracing :=
  { Backend := "jaeger"
    Zipkin := some { HTTPEndpoint := "http://zipkin:9411/api/v1/spans", SameSpan := true,
                     ID128Bit := false, Debug := true, SampleRate := 1 }
    DataDog := some { LocalAgentHostPort := "dd:8126", GlobalTag := "env:prod", Debug := false,
                      PrioritySampling := true } }

/-- A tracing block that selects Zipkin and carries its own Zipkin settings. -/
def tracingZipkinOwn : Tracing :=
  { Backend := "zipkin"
    Zipkin := some { HTTPEndpoint := "http://zipkin:9411/api/v1/spans", SameSpan := true,
                     ID128Bit := false, Debug := true, SampleRate := 1 } }

/-- A tracing block with an unknown selector that carries two sub-configurations. -/
def tracingUnknown : Tracing :=
  { Backend := "instana"
    Jaeger := some defaultJaeger
    DataDog := some { LocalAgentHostPort := "dd:8126", GlobalTag := "env:prod", Debug := false,
                      PrioritySampling := true } }

/-- A certificate used in examples. -/
def exampleCertificate : Certificate := { CertFile := "traefik.crt", KeyFile := "traefik.key" }

/-- A configuration with no entry point whose API refers to the internal entry point. -/
def gcAPIOnly : GlobalConfiguration := { API := some { EntryPoint := "traefik" } }

/-- A configuration whose API refers to the internal entry point and whose entry point
`traefik` is configured with a certificate and no default certificate. -/
def gcInternalWithTLS : GlobalConfiguration :=
  { API := some { EntryPoint := "traefik" }
    EntryPoints :=
      [("traefik", { Address := ":9000", TLS := some { Certificates := [exampleCertificate] } })] }

/-- A configuration whose ping handler refers to the internal entry point and whose only entry
point is `web`. -/
def gcPingWeb : GlobalConfiguration :=
  { Ping := some { EntryPoint := "traefik" }
    EntryPoints := [("web", { Address := ":8000" })] }

/-- A configuration that exercises every block of `SetEffectiveConfiguration`. -/
def gcFull : GlobalConfiguration :=
  { Debug := true
    EntryPoints :=
      [("https", { Address := ":443", TLS := some { Certificates := [exampleCertificate] } })]
    ACME := some { acmeHTTPTLS with CAServer := "https://acme-v01.api.letsencrypt.org/directory" }
    Tracing := some tracingJaegerWithOthers
    File := some { Directory := "/etc/traefik" }
    Rancher := some { AccessKey := "A", SecretKey := "B", Endpoint := "E"
                      Metadata := some {} }
    API := some { EntryPoint := "traefik" } }

/-- A configuration whose ACME block refers to an entry point that has TLS settings. -/
def gcACMEValid : GlobalConfiguration :=
  { ACME := some acmeNoChallenge
    EntryPoints := [("http", { Address := ":80" }), ("https", { Address := ":443", TLS := some {} })] }

/-- A configuration whose ACME block refers to an entry point that is not configured. -/
def gcACMEDangling : GlobalConfiguration :=
  { ACME := some acmeNoChallenge
    EntryPoints := [("http", { Address := ":80" })] }

/-- A configuration whose ACME block refers to an entry point without TLS settings. -/
def gcACMENoTLS : GlobalConfiguration :=
  { ACME := some acmeNoChallenge
    EntryPoints := [("https", { Address := ":443" })] }

/-- A legacy ACME block with domains that carry a trailing dot, a storage location and a DNS
challenge. -/
def acmeWithDomains : ACME :=
  { Email := "admin@example.com"
    Domains := [{ Main := "example.com.", SANs := ["www.example.com.", "api.example.com"] },
                { Main := "example.org", SANs := [] }]
    Storage := "acme.json"
    CAServer := "https://acme-v02.api.letsencrypt.org/directory"
    EntryPoint := "https"
    KeyType := "RSA4096"
    DNSChallenge := some { Provider := "route53", DelayBeforeCheck := 5 } }

/-- A legacy ACME block with an empty storage location. -/
def acmeNoStorage : ACME := { Email := "admin@example.com", EntryPoint := "https" }

/-- A cluster block. -/
def exampleCluster : Foreign := { content := "node-1" }

/-- A configuration with two entry points: `web` without a forwarded-headers policy, and
`websecure` with a policy, two certificates and no default certificate. -/
def gcTwoEntryPoints : GlobalConfiguration :=
  { EntryPoints :=
      [("web", { Address := ":8000" }),
       ("websecure",
         { Address := ":8443"
           TLS := some { Certificates := [exampleCertificate,
                                          { CertFile := "other.crt", KeyFile := "other.key" }] }
           ForwardedHeaders := some { Insecure := true, TrustedIPs := ["10.0.0.0/8"] } })] }

/-- A Rancher block with the three flat credential fields and no nested object. -/
def rancherFlat : RancherProvider := { AccessKey := "A", SecretKey := "B", Endpoint := "E" }

/-- A Rancher block with flat credential fields and a nested object of its own. -/
def rancherNested : RancherProvider :=
  { AccessKey := "A", SecretKey := "B", Endpoint := "E"
    API := some { AccessKey := "X", SecretKey := "Y", Endpoint := "Z" } }

/-! ## The flag value `DefaultEntryPoints` -/

/-- Go `strings.Split(s, sep)` for a separator of one ASCII character, on character lists: the
pieces of `s` between the occurrences of the separator, in order. There is always at least one
piece. -/
def splitOnChar (sep : Char) : List Char → List (List Char)
  | [] => [[]]
  | c :: cs =>
    if c = sep then [] :: splitOnChar sep cs
    else
      match splitOnChar sep cs with
      | piece :: pieces => (c :: piece) :: pieces
      | [] => [[c]]

/-- Go `strings.Join(elems, sep)` for a separator of one character, on character lists. -/
def joinWithChar (sep : Char) : List (List Char) → List Char
  | [] => []
  | [piece] => piece
  | piece :: next :: pieces => piece ++ sep :: joinWithChar sep (next :: pieces)

/-- Source method `DefaultEntryPoints.Set`: the returned error and the list after the call.
The value is split on "," and every piece is appended. -/
def DefaultEntryPoints.Set (dep : DefaultEntryPoints) (value : String) :
    Option String × DefaultEntryPoints :=
  let entrypoints : List String := (splitOnChar ',' value.data).map (fun piece => ⟨piece⟩)
  if entrypoints.length = 0 then
    (some ("bad DefaultEntryPoints format: " ++ value), dep)
  else
    (none, entrypoints.foldl (fun d entrypoint => d ++ [entrypoint]) dep)

/-- Source method `DefaultEntryPoints.String`: the elements joined with ",". -/
def DefaultEntryPoints.String (dep : DefaultEntryPoints) : String :=
  ⟨joinWithChar ',' (dep.map (fun (entrypoint : _) => entrypoint.data))⟩

/-! ## Theorems -/

theorem initACMEProvider_eq (gc : GlobalConfiguration) :
    initACMEProvider gc = { gc with ACME := gc.ACME.map resolveACME } := by
  obtain ⟨⟩ := gc
  rename_i acme _ _ _ _ _ _ _ _ _ _ _ _ _ _ _ _ _ _ _ _ _ _ _ _ _ _ _ _
  cases acme <;> rfl

theorem resolveACME_challenges (a : ACME) :
    (a.DNSChallenge.isSome = true →
      (resolveACME a).DNSChallenge = a.DNSChallenge ∧ (resolveACME a).HTTPChallenge = none ∧
        (resolveACME a).TLSChallenge = none) ∧
    (a.DNSChallenge = none → a.TLSChallenge.isSome = true →
      (resolveACME a).TLSChallenge = a.TLSChallenge ∧ (resolveACME a).HTTPChallenge = none ∧
        (resolveACME a).DNSChallenge = none) ∧
    (a.DNSChallenge = none → a.TLSChallenge = none →
      (resolveACME a).HTTPChallenge = a.HTTPChallenge ∧ (resolveACME a).DNSChallenge = none ∧
        (resolveACME a).TLSChallenge = none) := by
  obtain ⟨_, _, _, _, _, _, _, _, d, h, t, _⟩ := a
  cases d <;> cases h <;> cases t <;> simp [resolveACME]

theorem backendNames_distinct :
    zipkinName ≠ jaegerName ∧ datadogName ≠ jaegerName ∧ datadogName ≠ zipkinName := by
  decide

theorem initTracing_eq (gc : GlobalConfiguration) :
    initTracing gc = { gc with Tracing := gc.Tracing.map resolveTracing } := by
  obtain ⟨hzj, hdj, hdz⟩ := backendNames_distinct
  cases h : gc.Tracing with
  | none => simp [initTracing, h]; rw [← h]
  | some t =>
    obtain ⟨b, j, z, d⟩ := t
    by_cases h1 : b = jaegerName
    · subst h1
      cases j <;> cases z <;> cases d <;> simp [initTracing, resolveTracing, h]
    · by_cases h2 : b = zipkinName
      · subst h2
        cases j <;> cases z <;> cases d <;> simp [initTracing, resolveTracing, h, hzj]
      · by_cases h3 : b = datadogName
        · subst h3
          cases j <;> cases z <;> cases d <;> simp [initTracing, resolveTracing, h, hdj, hdz]
        · simp [initTracing, resolveTracing, h, h1, h2, h3]; rw [← h]

theorem refersToInternalEntryPoint_congr (gc gc' : GlobalConfiguration)
    (hapi : gc'.API.map (·.EntryPoint) = gc.API.map (·.EntryPoint)) (hping : gc'.Ping = gc.Ping)
    (hmetrics : gc'.Metrics = gc.Metrics) (hrest : gc'.Rest = gc.Rest) :
    refersToInternalEntryPoint gc' = refersToInternalEntryPoint gc := by
  unfold refersToInternalEntryPoint
  rw [hping, hmetrics, hrest]
  cases h : gc.API <;> cases h' : gc'.API <;> simp_all

theorem defaultHTTPEntryPoint_eq (gc : GlobalConfiguration) :
    defaultHTTPEntryPoint gc =
      { gc with
        EntryPoints := withSynthesized false gc.EntryPoints
        DefaultEntryPoints := if gc.EntryPoints.length = 0 then ["http"] else gc.DefaultEntryPoints } := by
  by_cases h : gc.EntryPoints.length = 0 <;>
    simp [defaultHTTPEntryPoint, withSynthesized, httpEntryPoint, h]

theorem withSynthesized_true (eps : EntryPoints) :
    withSynthesized true eps =
      match (withSynthesized false eps).lookup DefaultInternalEntryPointName with
      | some _ => withSynthesized false eps
      | none => withSynthesized false eps ++ [(DefaultInternalEntryPointName, internalEntryPoint)] :=
  rfl

theorem defaultInternalEntryPoint_defaultHTTPEntryPoint (gc : GlobalConfiguration) :
    defaultInternalEntryPoint (defaultHTTPEntryPoint gc) =
      { gc with
        EntryPoints := withSynthesized (refersToInternalEntryPoint gc) gc.EntryPoints
        DefaultEntryPoints := if gc.EntryPoints.length = 0 then ["http"] else gc.DefaultEntryPoints } := by
  have hr : refersToInternalEntryPoint (defaultHTTPEntryPoint gc) = refersToInternalEntryPoint gc := by
    apply refersToInternalEntryPoint_congr <;> rw [defaultHTTPEntryPoint_eq]
  unfold defaultInternalEntryPoint
  rw [hr]
  cases hi : refersToInternalEntryPoint gc
  · simp [defaultHTTPEntryPoint_eq]
  · simp only [defaultHTTPEntryPoint_eq, if_true, withSynthesized_true]
    generalize withSynthesized false gc.EntryPoints = e
    cases hl : List.lookup DefaultInternalEntryPointName e <;> simp [internalEntryPoint]

theorem SetEffectiveConfiguration_eq (gc : GlobalConfiguration) (configFile : String) :
    SetEffectiveConfiguration gc configFile =
      { gc with
        EntryPoints := entryPointsAfter (refersToInternalEntryPoint gc) gc.EntryPoints
        DefaultEntryPoints := if gc.EntryPoints.length = 0 then ["http"] else gc.DefaultEntryPoints
        LifeCycle := some (gc.LifeCycle.getD {})
        Rancher := gc.Rancher.map setRancherDefaults
        API := gc.API.map (fun api => { api with Debug := gc.Debug })
        File := gc.File.map (fun file => { file with TraefikFile := configFile })
        ACME := gc.ACME.map resolveACME
        Tracing := gc.Tracing.map resolveTracing } := by
  unfold SetEffectiveConfiguration
  simp only [initTracing_eq, initACMEProvider_eq, defaultInternalEntryPoint_defaultHTTPEntryPoint]
  cases h1 : gc.LifeCycle <;> cases h2 : gc.Rancher <;> cases h3 : gc.API <;> cases h4 : gc.File <;>
    simp [setEntryPointsDefaults, defaultLifeCycle, rancherCompat, propagateDebug,
      propagateConfigFile, entryPointsAfter, h1, h2, h3, h4]

/-! ### The ACME challenge resolver -/

theorem resolveACME_activeChallenges (a : ACME) :
    (resolveACME a).activeChallenges ≤ 1 ∧
      ((resolveACME a).activeChallenges = 1 ↔ 0 < a.activeChallenges) := by
  obtain ⟨_, _, _, _, _, _, _, _, d, h, t, _⟩ := a
  cases d <;> cases h <;> cases t <;> simp [resolveACME, ACME.activeChallenges]

/-- C1: for every ACME block, after `initACMEProvider` (which `SetEffectiveConfiguration` runs)
the surviving challenge is the configured one of highest priority in the order DNS, TLS, HTTP,
unchanged, and the other two are absent; at most one challenge is set afterwards. -/
theorem initACMEProvider_keeps_one_challenge (gc : GlobalConfiguration) (acme : ACME)
    (configFile : String) (h : gc.ACME = some acme) :
    ∃ acme', (initACMEProvider gc).ACME = some acme' ∧
      (SetEffectiveConfiguration gc configFile).ACME = some acme' ∧
      (acme.DNSChallenge.isSome = true →
        acme'.DNSChallenge = acme.DNSChallenge ∧ acme'.HTTPChallenge = none ∧
          acme'.TLSChallenge = none) ∧
      (acme.DNSChallenge = none → acme.TLSChallenge.isSome = true →
        acme'.TLSChallenge = acme.TLSChallenge ∧ acme'.HTTPChallenge = none ∧
          acme'.DNSChallenge = none) ∧
      (acme.DNSChallenge = none → acme.TLSChallenge = none →
        acme'.HTTPChallenge = acme.HTTPChallenge ∧ acme'.DNSChallenge = none ∧
          acme'.TLSChallenge = none) ∧
      acme'.activeChallenges ≤ 1 := by
  refine ⟨resolveACME acme, ?_, ?_, ?_⟩
  · simp [initACMEProvider_eq, h]
  · simp [SetEffectiveConfiguration_eq, h]
  · obtain ⟨h1, h2, h3⟩ := resolveACME_challenges acme
    exact ⟨h1, h2, h3, (resolveACME_activeChallenges acme).1⟩

theorem initACMEProvider_keeps_one_challenge_witness :
    ({ ACME := some acmeDNSHTTP } : GlobalConfiguration).ACME = some acmeDNSHTTP ∧
    ∃ acme', (initACMEProvider { ACME := some acmeDNSHTTP }).ACME = some acme' ∧
      (SetEffectiveConfiguration { ACME := some acmeDNSHTTP } "traefik.toml").ACME = some acme' ∧
      (acmeDNSHTTP.DNSChallenge.isSome = true →
        acme'.DNSChallenge = acmeDNSHTTP.DNSChallenge ∧ acme'.HTTPChallenge = none ∧
          acme'.TLSChallenge = none) ∧
      (acmeDNSHTTP.DNSChallenge = none → acmeDNSHTTP.TLSChallenge.isSome = true →
        acme'.TLSChallenge = acmeDNSHTTP.TLSChallenge ∧ acme'.HTTPChallenge = none ∧
          acme'.DNSChallenge = none) ∧
      (acmeDNSHTTP.DNSChallenge = none → acmeDNSHTTP.TLSChallenge = none →
        acme'.HTTPChallenge = acmeDNSHTTP.HTTPChallenge ∧ acme'.DNSChallenge = none ∧
          acme'.TLSChallenge = none) ∧
      acme'.activeChallenges ≤ 1 :=
  ⟨rfl, initACMEProvider_keeps_one_challenge { ACME := some acmeDNSHTTP } acmeDNSHTTP
    "traefik.toml" rfl⟩

/-- C2, as stated, fails: on an ACME block with an HTTP and a TLS challenge and no DNS
challenge, `initACMEProvider` does not retain the HTTP challenge; it drops it and keeps the TLS
challenge. -/
theorem initACMEProvider_http_does_not_beat_tls :
    acmeHTTPTLS.DNSChallenge = none ∧ acmeHTTPTLS.HTTPChallenge.isSome = true ∧
    acmeHTTPTLS.TLSChallenge.isSome = true ∧
    (initACMEProvider { ACME := some acmeHTTPTLS }).ACME =
      some { acmeHTTPTLS with
        CAServer := "https://acme-v02.api.letsencrypt.org/directory", HTTPChallenge := none } ∧
    ¬ ∃ acme', (initACMEProvider { ACME := some acmeHTTPTLS }).ACME = some acme' ∧
        acme'.HTTPChallenge = acmeHTTPTLS.HTTPChallenge ∧ acme'.TLSChallenge = none := by
  refine ⟨rfl, rfl, rfl, by decide, ?_⟩
  rintro ⟨acme', h, h1, -⟩
  have h0 : (initACMEProvider { ACME := some acmeHTTPTLS }).ACME =
      some { acmeHTTPTLS with
        CAServer := "https://acme-v02.api.letsencrypt.org/directory", HTTPChallenge := none } := by
    decide
  rw [h0] at h
  injection h with h
  subst h
  exact absurd h1 (by decide)

/-- C2, amended: DNS beats HTTP and TLS, and with no DNS challenge TLS beats HTTP: for every
ACME block with no DNS challenge and both an HTTP and a TLS challenge, after
`initACMEProvider` the TLS challenge is retained and the HTTP challenge is absent. -/
theorem initACMEProvider_tls_beats_http (gc : GlobalConfiguration) (acme : ACME)
    (h : gc.ACME = some acme) :
    ∃ acme', (initACMEProvider gc).ACME = some acme' ∧
      (acme.DNSChallenge.isSome = true →
        acme'.DNSChallenge = acme.DNSChallenge ∧ acme'.HTTPChallenge = none ∧
          acme'.TLSChallenge = none) ∧
      (acme.DNSChallenge = none → acme.HTTPChallenge.isSome = true →
        acme.TLSChallenge.isSome = true →
        acme'.TLSChallenge = acme.TLSChallenge ∧ acme'.HTTPChallenge = none ∧
          acme'.DNSChallenge = none) := by
  refine ⟨resolveACME acme, by simp [initACMEProvider_eq, h], ?_⟩
  obtain ⟨h1, h2, -⟩ := resolveACME_challenges acme
  exact ⟨h1, fun hd _ ht => h2 hd ht⟩

theorem initACMEProvider_tls_beats_http_witness :
    ({ ACME := some acmeHTTPTLS } : GlobalConfiguration).ACME = some acmeHTTPTLS ∧
    ∃ acme', (initACMEProvider { ACME := some acmeHTTPTLS }).ACME = some acme' ∧
      (acmeHTTPTLS.DNSChallenge.isSome = true →
        acme'.DNSChallenge = acmeHTTPTLS.DNSChallenge ∧ acme'.HTTPChallenge = none ∧
          acme'.TLSChallenge = none) ∧
      (acmeHTTPTLS.DNSChallenge = none → acmeHTTPTLS.HTTPChallenge.isSome = true →
        acmeHTTPTLS.TLSChallenge.isSome = true →
        acme'.TLSChallenge = acmeHTTPTLS.TLSChallenge ∧ acme'.HTTPChallenge = none ∧
          acme'.DNSChallenge = none) :=
  ⟨rfl, initACMEProvider_tls_beats_http { ACME := some acmeHTTPTLS } acmeHTTPTLS rfl⟩

/-! ### The ACME provider initializer after the resolver -/

theorem length_eq_zero_iff (s : String) : s.length = 0 ↔ s = "" := by
  obtain ⟨l⟩ := s
  cases l <;> simp [String.ext_iff]

theorem foldl_append_domains (ds : List Domain) (c : ProviderConfiguration) :
    ds.foldl (fun c domain => { c with Domains := c.Domains ++ [domain] }) c =
      { c with Domains := c.Domains ++ ds } := by
  induction ds generalizing c with
  | nil => simp
  | cons d ds ih => simp [ih]

theorem convertACMEChallenge_eq (a : ACME) :
    convertACMEChallenge a =
      { KeyType := a.KeyType
        OnHostRule := a.OnHostRule
        Email := a.Email
        Storage := a.Storage
        ACMELogging := a.ACMELogging
        CAServer := a.CAServer
        EntryPoint := a.EntryPoint
        Domains := a.Domains
        HTTPChallenge := a.HTTPChallenge.map (fun h => { EntryPoint := h.EntryPoint })
        DNSChallenge := a.DNSChallenge.map
          (fun d => { Provider := d.Provider, DelayBeforeCheck := d.DelayBeforeCheck })
        TLSChallenge := a.TLSChallenge.map (fun _ => {}) } := by
  obtain ⟨_, _, _, _, _, _, _, _, d, h, t, _⟩ := a
  cases d <;> cases h <;> cases t <;> simp [convertACMEChallenge, foldl_append_domains]

theorem convertACMEChallenge_activeChallenges (a : ACME) :
    (convertACMEChallenge a).activeChallenges = a.activeChallenges := by
  rw [convertACMEChallenge_eq]
  simp [ProviderConfiguration.activeChallenges, ACME.activeChallenges]

theorem resolveACME_Storage (a : ACME) : (resolveACME a).Storage = a.Storage := by
  obtain ⟨_, _, _, _, _, _, _, _, d, h, t, _⟩ := a
  cases d <;> cases h <;> cases t <;> simp [resolveACME]

theorem InitACMEProvider_of_storage (gc : GlobalConfiguration) (acme : ACME)
    (h : gc.ACME = some acme) (hs : acme.Storage ≠ "") (hc : gc.Cluster = none) :
    InitACMEProvider gc =
      (some { Configuration := convertACMEChallenge acme
              Store := { filename := (convertACMEChallenge acme).Storage } },
        none, { gc with ACME := none }) := by
  have hs' : ¬ acme.Storage.length = 0 := fun h0 => hs ((length_eq_zero_iff _).1 h0)
  simp only [InitACMEProvider, h, hc, hs', if_false]

/-- C3, as stated, fails: an ACME block with a storage location and no challenge at all, no
cluster block. After `SetEffectiveConfiguration` and `InitACMEProvider` none of the three
challenge carries of the returned provider is set. -/
theorem InitACMEProvider_no_challenge_carried :
    ({ ACME := some acmeNoChallenge } : GlobalConfiguration).ACME = some acmeNoChallenge ∧
    acmeNoChallenge.Storage ≠ "" ∧
    ({ ACME := some acmeNoChallenge } : GlobalConfiguration).Cluster = none ∧
    ∃ p, (InitACMEProvider
        (SetEffectiveConfiguration { ACME := some acmeNoChallenge } "traefik.toml")).1 = some p ∧
      p.Configuration.HTTPChallenge = none ∧ p.Configuration.DNSChallenge = none ∧
      p.Configuration.TLSChallenge = none ∧ p.Configuration.activeChallenges ≠ 1 := by
  refine ⟨rfl, by decide, rfl, _, rfl, ?_⟩
  decide

/-- C3, amended: for every configuration with ACME present, a non-empty storage location and
no cluster block, after `SetEffectiveConfiguration` followed by `InitACMEProvider` at most one
of the three challenge carries of the returned provider configuration is set, and exactly one
is set if and only if the ACME block had at least one challenge configured. -/
theorem InitACMEProvider_carries_at_most_one (gc : GlobalConfiguration) (acme : ACME)
    (configFile : String) (h : gc.ACME = some acme) (hs : acme.Storage ≠ "")
    (hc : gc.Cluster = none) :
    ∃ p gc', InitACMEProvider (SetEffectiveConfiguration gc configFile) = (some p, none, gc') ∧
      p.Configuration.activeChallenges ≤ 1 ∧
      (p.Configuration.activeChallenges = 1 ↔ 0 < acme.activeChallenges) := by
  have h' : (SetEffectiveConfiguration gc configFile).ACME = some (resolveACME acme) := by
    simp [SetEffectiveConfiguration_eq, h]
  have hc' : (SetEffectiveConfiguration gc configFile).Cluster = none := by
    simp [SetEffectiveConfiguration_eq, hc]
  have hs' : (resolveACME acme).Storage ≠ "" := by rw [resolveACME_Storage]; exact hs
  refine ⟨_, _, InitACMEProvider_of_storage _ _ h' hs' hc', ?_⟩
  simp only [convertACMEChallenge_activeChallenges]
  exact resolveACME_activeChallenges acme

theorem InitACMEProvider_carries_at_most_one_witness :
    ({ ACME := some acmeDNSHTTP } : GlobalConfiguration).ACME = some acmeDNSHTTP ∧
    acmeDNSHTTP.Storage ≠ "" ∧
    ({ ACME := some acmeDNSHTTP } : GlobalConfiguration).Cluster = none ∧
    ∃ p gc', InitACMEProvider
        (SetEffectiveConfiguration { ACME := some acmeDNSHTTP } "traefik.toml") =
          (some p, none, gc') ∧
      p.Configuration.activeChallenges ≤ 1 ∧
      (p.Configuration.activeChallenges = 1 ↔ 0 < acmeDNSHTTP.activeChallenges) :=
  ⟨rfl, by decide, rfl,
    InitACMEProvider_carries_at_most_one { ACME := some acmeDNSHTTP } acmeDNSHTTP "traefik.toml"
      rfl (by decide) rfl⟩

/-! ### The tracing backend resolver -/

/-- C4: for every tracing block whose selector is "jaeger", "zipkin" or "datadog", after
`initTracing` (which `SetEffectiveConfiguration` runs last) exactly one of the three
sub-configurations is set, the one of the selected backend; the other two are absent whatever
was configured before. -/
theorem initTracing_known_backend_exclusive (gc : GlobalConfiguration) (t : Tracing)
    (configFile : String) (h : gc.Tracing = some t)
    (hk : t.Backend = "jaeger" ∨ t.Backend = "zipkin" ∨ t.Backend = "datadog") :
    ∃ t', (initTracing gc).Tracing = some t' ∧
      (SetEffectiveConfiguration gc configFile).Tracing = some t' ∧
      t'.Backend = t.Backend ∧
      t'.activeBackends = 1 ∧
      (t.Backend = "jaeger" → t'.Jaeger.isSome = true ∧ t'.Zipkin = none ∧ t'.DataDog = none) ∧
      (t.Backend = "zipkin" → t'.Zipkin.isSome = true ∧ t'.Jaeger = none ∧ t'.DataDog = none) ∧
      (t.Backend = "datadog" → t'.DataDog.isSome = true ∧ t'.Jaeger = none ∧ t'.Zipkin = none) := by
  refine ⟨resolveTracing t, by simp [initTracing_eq, h], by simp [SetEffectiveConfiguration_eq, h],
    ?_⟩
  obtain ⟨b, j, z, d⟩ := t
  simp only at hk
  rcases hk with hk | hk | hk <;> subst hk <;>
    simp [resolveTracing, Tracing.activeBackends, jaegerName, zipkinName, datadogName]

theorem initTracing_known_backend_exclusive_witness :
    ({ Tracing := some tracingJaegerWithOthers } : GlobalConfiguration).Tracing =
      some tracingJaegerWithOthers ∧
    (tracingJaegerWithOthers.Backend = "jaeger" ∨ tracingJaegerWithOthers.Backend = "zipkin" ∨
      tracingJaegerWithOthers.Backend = "datadog") ∧
    ∃ t', (initTracing { Tracing := some tracingJaegerWithOthers }).Tracing = some t' ∧
      (SetEffectiveConfiguration { Tracing := some tracingJaegerWithOthers }
        "traefik.toml").Tracing = some t' ∧
      t'.Backend = tracingJaegerWithOthers.Backend ∧
      t'.activeBackends = 1 ∧
      (tracingJaegerWithOthers.Backend = "jaeger" →
        t'.Jaeger.isSome = true ∧ t'.Zipkin = none ∧ t'.DataDog = none) ∧
      (tracingJaegerWithOthers.Backend = "zipkin" →
        t'.Zipkin.isSome = true ∧ t'.Jaeger = none ∧ t'.DataDog = none) ∧
      (tracingJaegerWithOthers.Backend = "datadog" →
        t'.DataDog.isSome = true ∧ t'.Jaeger = none ∧ t'.Zipkin = none) :=
  ⟨rfl, Or.inl rfl,
    initTracing_known_backend_exclusive { Tracing := some tracingJaegerWithOthers }
      tracingJaegerWithOthers "traefik.toml" rfl (Or.inl rfl)⟩

/-- C5: for every tracing block with a known selector, the sub-configuration of the selected
backend after `initTracing` is the one configured before when there was one, and otherwise the
built-in default of that backend, with the literal values of the source. -/
theorem initTracing_selected_backend_value (gc : GlobalConfiguration) (t : Tracing)
    (h : gc.Tracing = some t)
    (hk : t.Backend = "jaeger" ∨ t.Backend = "zipkin" ∨ t.Backend = "datadog") :
    ∃ t', (initTracing gc).Tracing = some t' ∧
      (t.Backend = "jaeger" →
        t'.Jaeger = some (t.Jaeger.getD
          { SamplingServerURL := "http://localhost:5778/sampling", SamplingType := "const",
            SamplingParam := 1, LocalAgentHostPort := "127.0.0.1:6831", Propagation := "jaeger",
            Gen128Bit := false })) ∧
      (t.Backend = "zipkin" →
        t'.Zipkin = some (t.Zipkin.getD
          { HTTPEndpoint := "http://localhost:9411/api/v1/spans", SameSpan := false,
            ID128Bit := true, Debug := false, SampleRate := 1 })) ∧
      (t.Backend = "datadog" →
        t'.DataDog = some (t.DataDog.getD
          { LocalAgentHostPort := "localhost:8126", GlobalTag := "", Debug := false,
            PrioritySampling := false })) := by
  refine ⟨resolveTracing t, by simp [initTracing_eq, h], ?_⟩
  obtain ⟨b, j, z, d⟩ := t
  simp only at hk
  rcases hk with hk | hk | hk <;> subst hk <;>
    simp [resolveTracing, jaegerName, zipkinName, datadogName, defaultJaeger, defaultZipkin,
      defaultDataDog]

theorem initTracing_selected_backend_value_witness :
    ({ Tracing := some tracingZipkinOwn } : GlobalConfiguration).Tracing = some tracingZipkinOwn ∧
    (tracingZipkinOwn.Backend = "jaeger" ∨ tracingZipkinOwn.Backend = "zipkin" ∨
      tracingZipkinOwn.Backend = "datadog") ∧
    ∃ t', (initTracing { Tracing := some tracingZipkinOwn }).Tracing = some t' ∧
      (tracingZipkinOwn.Backend = "jaeger" →
        t'.Jaeger = some (tracingZipkinOwn.Jaeger.getD
          { SamplingServerURL := "http://localhost:5778/sampling", SamplingType := "const",
            SamplingParam := 1, LocalAgentHostPort := "127.0.0.1:6831", Propagation := "jaeger",
            Gen128Bit := false })) ∧
      (tracingZipkinOwn.Backend = "zipkin" →
        t'.Zipkin = some (tracingZipkinOwn.Zipkin.getD
          { HTTPEndpoint := "http://localhost:9411/api/v1/spans", SameSpan := false,
            ID128Bit := true, Debug := false, SampleRate := 1 })) ∧
      (tracingZipkinOwn.Backend = "datadog" →
        t'.DataDog = some (tracingZipkinOwn.DataDog.getD
          { LocalAgentHostPort := "localhost:8126", GlobalTag := "", Debug := false,
            PrioritySampling := false })) :=
  ⟨rfl, Or.inr (Or.inl rfl),
    initTracing_selected_backend_value { Tracing := some tracingZipkinOwn } tracingZipkinOwn rfl
      (Or.inr (Or.inl rfl))⟩

/-- C6: for every tracing block whose selector is none of the known backend names,
`initTracing` changes nothing: the aggregate, and with it the whole tracing block and each of
its sub-configurations, is as before; the same holds of the tracing block after
`SetEffectiveConfiguration`. -/
theorem initTracing_unknown_backend_unchanged (gc : GlobalConfiguration) (t : Tracing)
    (configFile : String) (h : gc.Tracing = some t)
    (hj : t.Backend ≠ "jaeger") (hz : t.Backend ≠ "zipkin") (hd : t.Backend ≠ "datadog") :
    initTracing gc = gc ∧ (initTracing gc).Tracing = some t ∧
      (SetEffectiveConfiguration gc configFile).Tracing = some t := by
  have hr : resolveTracing t = t := by
    simp [resolveTracing, jaegerName, zipkinName, datadogName, hj, hz, hd]
  have h1 : initTracing gc = gc := by
    rw [initTracing_eq, h]
    simp only [Option.map_some', hr]
    rw [← h]
  refine ⟨h1, by rw [h1, h], ?_⟩
  simp [SetEffectiveConfiguration_eq, h, hr]

theorem initTracing_unknown_backend_unchanged_witness :
    ({ Tracing := some tracingUnknown } : GlobalConfiguration).Tracing = some tracingUnknown ∧
    tracingUnknown.Backend ≠ "jaeger" ∧ tracingUnknown.Backend ≠ "zipkin" ∧
    tracingUnknown.Backend ≠ "datadog" ∧
    initTracing { Tracing := some tracingUnknown } = { Tracing := some tracingUnknown } ∧
    (initTracing { Tracing := some tracingUnknown }).Tracing = some tracingUnknown ∧
    (SetEffectiveConfiguration { Tracing := some tracingUnknown } "traefik.toml").Tracing =
      some tracingUnknown :=
  ⟨rfl, by decide, by decide, by decide,
    initTracing_unknown_backend_unchanged { Tracing := some tracingUnknown } tracingUnknown
      "traefik.toml" rfl (by decide) (by decide) (by decide)⟩

/-! ### Entry-point defaulting -/

theorem lookup_map_snd (f : EntryPoint → EntryPoint) (k : String) (eps : EntryPoints) :
    List.lookup k (eps.map (fun (e : String × EntryPoint) => (e.1, f e.2))) =
      (List.lookup k eps).map f := by
  induction eps with
  | nil => rfl
  | cons e eps ih =>
    obtain ⟨n, ep⟩ := e
    simp only [List.map_cons, List.lookup_cons]
    cases k == n <;> simp [ih]

theorem lookup_append_singleton_of_none (k : String) (v : EntryPoint) (eps : EntryPoints)
    (h : List.lookup k eps = none) : List.lookup k (eps ++ [(k, v)]) = some v := by
  induction eps with
  | nil => simp [List.lookup]
  | cons e eps ih =>
    obtain ⟨n, ep⟩ := e
    simp only [List.lookup_cons] at h
    simp only [List.cons_append, List.lookup_cons]
    cases hk : k == n
    · simp only [hk] at h
      exact ih h
    · simp [hk] at h

theorem withSynthesized_of_nil (internal : Bool) :
    withSynthesized internal [] =
      if internal then [("http", httpEntryPoint), (DefaultInternalEntryPointName, internalEntryPoint)]
      else [("http", httpEntryPoint)] := by
  cases internal <;> rfl

theorem withSynthesized_of_lookup_some (internal : Bool) (eps : EntryPoints) (ep : EntryPoint)
    (h : List.lookup DefaultInternalEntryPointName eps = some ep) :
    withSynthesized internal eps = eps := by
  have hne : eps.length ≠ 0 := by
    cases eps with
    | nil => simp at h
    | cons _ _ => simp
  cases internal <;> simp [withSynthesized, hne, h]

theorem setEntryPointDefaults_httpEntryPoint :
    setEntryPointDefaults httpEntryPoint = { Address := ":80", ForwardedHeaders := some {} } := by
  decide

theorem setEntryPointDefaults_internalEntryPoint :
    setEntryPointDefaults internalEntryPoint =
      { Address := ":8080", ForwardedHeaders := some {} } := by
  decide

/-- C7, as stated, fails: with no entry point configured and an API that refers to "traefik",
`SetEffectiveConfiguration` leaves two entry points, "http" and "traefik", not one. -/
theorem SetEffectiveConfiguration_empty_with_api_two_entry_points :
    gcAPIOnly.EntryPoints = [] ∧
    (SetEffectiveConfiguration gcAPIOnly "traefik.toml").EntryPoints =
      [("http", { Address := ":80", ForwardedHeaders := some {} }),
       ("traefik", { Address := ":8080", ForwardedHeaders := some {} })] ∧
    (SetEffectiveConfiguration gcAPIOnly "traefik.toml").EntryPoints.length ≠ 1 := by
  decide

/-- C7, amended: for every configuration with no entry points configured, after
`SetEffectiveConfiguration` the default-entry-point list is exactly ["http"] and the entry-point
set holds "http" bound to ":80" with an empty forwarded-headers policy; it is the only entry
point when none of the API, the ping handler, the Prometheus metrics and the REST provider
refers to "traefik", and otherwise the set holds exactly "http" and "traefik", the latter bound
to ":8080" with no TLS settings and an empty forwarded-headers policy. -/
theorem SetEffectiveConfiguration_no_entry_points (gc : GlobalConfiguration)
    (configFile : String) (h : gc.EntryPoints = []) :
    (SetEffectiveConfiguration gc configFile).DefaultEntryPoints = ["http"] ∧
    (refersToInternalEntryPoint gc = false →
      (SetEffectiveConfiguration gc configFile).EntryPoints =
        [("http", { Address := ":80", TLS := none, Redirect := none,
                    ForwardedHeaders := some { Insecure := false, TrustedIPs := [] } })]) ∧
    (refersToInternalEntryPoint gc = true →
      (SetEffectiveConfiguration gc configFile).EntryPoints =
        [("http", { Address := ":80", TLS := none, Redirect := none,
                    ForwardedHeaders := some { Insecure := false, TrustedIPs := [] } }),
         ("traefik", { Address := ":8080", TLS := none, Redirect := none,
                       ForwardedHeaders := some { Insecure := false, TrustedIPs := [] } })]) := by
  refine ⟨by simp [SetEffectiveConfiguration_eq, h], ?_, ?_⟩ <;> intro hr <;>
    simp [SetEffectiveConfiguration_eq, h, hr, entryPointsAfter, withSynthesized_of_nil,
      setEntryPointDefaults_httpEntryPoint, setEntryPointDefaults_internalEntryPoint,
      DefaultInternalEntryPointName]

theorem SetEffectiveConfiguration_no_entry_points_witness :
    gcAPIOnly.EntryPoints = [] ∧
    (SetEffectiveConfiguration gcAPIOnly "traefik.toml").DefaultEntryPoints = ["http"] ∧
    (refersToInternalEntryPoint gcAPIOnly = false →
      (SetEffectiveConfiguration gcAPIOnly "traefik.toml").EntryPoints =
        [("http", { Address := ":80", TLS := none, Redirect := none,
                    ForwardedHeaders := some { Insecure := false, TrustedIPs := [] } })]) ∧
    (refersToInternalEntryPoint gcAPIOnly = true →
      (SetEffectiveConfiguration gcAPIOnly "traefik.toml").EntryPoints =
        [("http", { Address := ":80", TLS := none, Redirect := none,
                    ForwardedHeaders := some { Insecure := false, TrustedIPs := [] } }),
         ("traefik", { Address := ":8080", TLS := none, Redirect := none,
                       ForwardedHeaders := some { Insecure := false, TrustedIPs := [] } })]) :=
  ⟨rfl, SetEffectiveConfiguration_no_entry_points gcAPIOnly "traefik.toml" rfl⟩

theorem refersToInternalEntryPoint_iff (gc : GlobalConfiguration) :
    refersToInternalEntryPoint gc = true ↔
      ((∃ api, gc.API = some api ∧ api.EntryPoint = "traefik") ∨
        (∃ ping, gc.Ping = some ping ∧ ping.EntryPoint = "traefik") ∨
        (∃ m p, gc.Metrics = some m ∧ m.Prometheus = some p ∧ p.EntryPoint = "traefik") ∨
        (∃ rest, gc.Rest = some rest ∧ rest.EntryPoint = "traefik")) := by
  unfold refersToInternalEntryPoint
  cases gc.API <;> cases gc.Ping <;> cases gc.Rest <;> rcases gc.Metrics with _ | ⟨⟨_ | p⟩⟩ <;>
    simp [DefaultInternalEntryPointName, or_assoc]

/-- C8, as stated, fails in its last part: an entry point "traefik" configured with TLS
settings that hold a certificate and no default certificate does not keep its TLS settings;
after `SetEffectiveConfiguration` the first certificate is its default certificate. -/
theorem SetEffectiveConfiguration_internal_tls_changes :
    List.lookup "traefik" gcInternalWithTLS.EntryPoints =
      some { Address := ":9000", TLS := some { Certificates := [exampleCertificate] } } ∧
    List.lookup "traefik" (SetEffectiveConfiguration gcInternalWithTLS "traefik.toml").EntryPoints =
      some { Address := ":9000"
             TLS := some { Certificates := [exampleCertificate]
                           DefaultCertificate := some exampleCertificate }
             ForwardedHeaders := some {} } ∧
    (List.lookup "traefik"
        (SetEffectiveConfiguration gcInternalWithTLS "traefik.toml").EntryPoints).map (·.TLS) ≠
      (List.lookup "traefik" gcInternalWithTLS.EntryPoints).map (·.TLS) := by
  decide

/-- C8, amended: for every configuration in which the API, the ping handler, the Prometheus
metrics block or the REST provider is present with entry-point reference "traefik" and no entry
point "traefik" is configured, after `SetEffectiveConfiguration` the entry-point set contains
"traefik" bound to ":8080" with no TLS settings; an entry point "traefik" that was already
configured keeps its address, and keeps its TLS settings except that an absent default
certificate becomes the first certificate of the list when there is one. -/
theorem SetEffectiveConfiguration_internal_entry_point (gc : GlobalConfiguration)
    (configFile : String) :
    (((∃ api, gc.API = some api ∧ api.EntryPoint = "traefik") ∨
        (∃ ping, gc.Ping = some ping ∧ ping.EntryPoint = "traefik") ∨
        (∃ m p, gc.Metrics = some m ∧ m.Prometheus = some p ∧ p.EntryPoint = "traefik") ∨
        (∃ rest, gc.Rest = some rest ∧ rest.EntryPoint = "traefik")) →
      List.lookup "traefik" gc.EntryPoints = none →
      List.lookup "traefik" (SetEffectiveConfiguration gc configFile).EntryPoints =
        some { Address := ":8080", TLS := none, Redirect := none,
               ForwardedHeaders := some { Insecure := false, TrustedIPs := [] } }) ∧
    (∀ ep, List.lookup "traefik" gc.EntryPoints = some ep →
      ∃ ep', List.lookup "traefik" (SetEffectiveConfiguration gc configFile).EntryPoints = some ep' ∧
        ep'.Address = ep.Address ∧
        (ep.TLS = none → ep'.TLS = none) ∧
        (∀ tls, ep.TLS = some tls →
          ep'.TLS = some { tls with
            DefaultCertificate := tls.DefaultCertificate <|> tls.Certificates.head? })) := by
  constructor
  · intro hr hl
    have hr' := (refersToInternalEntryPoint_iff gc).2 hr
    have hl0 : List.lookup DefaultInternalEntryPointName (withSynthesized false gc.EntryPoints) =
        none := by
      cases he : gc.EntryPoints with
      | nil => decide
      | cons e es =>
        rw [he] at hl
        simpa [withSynthesized, DefaultInternalEntryPointName] using hl
    have hw : withSynthesized true gc.EntryPoints =
        withSynthesized false gc.EntryPoints ++
          [(DefaultInternalEntryPointName, internalEntryPoint)] := by
      rw [withSynthesized_true, hl0]
    have := lookup_append_singleton_of_none DefaultInternalEntryPointName internalEntryPoint _ hl0
    simp only [SetEffectiveConfiguration_eq, hr', entryPointsAfter, hw]
    show List.lookup DefaultInternalEntryPointName _ = _
    rw [lookup_map_snd, this]
    simp [setEntryPointDefaults_internalEntryPoint]
  · intro ep hl
    refine ⟨setEntryPointDefaults ep, ?_, ?_, ?_, ?_⟩
    · simp only [SetEffectiveConfiguration_eq, entryPointsAfter]
      show List.lookup DefaultInternalEntryPointName _ = _
      rw [lookup_map_snd, withSynthesized_of_lookup_some _ _ ep hl]
      change List.lookup "traefik" gc.EntryPoints = some ep at hl
      show Option.map _ (List.lookup "traefik" gc.EntryPoints) = _
      rw [hl]; rfl
    · obtain ⟨a, t, r, f⟩ := ep
      cases f <;> rcases t with _ | ⟨⟨_ | _, _ | _⟩⟩ <;> rfl
    · obtain ⟨a, t, r, f⟩ := ep
      rintro rfl
      cases f <;> rfl
    · obtain ⟨a, t, r, f⟩ := ep
      rintro tls rfl
      cases f <;> rcases tls with ⟨_ | _, _ | _⟩ <;> rfl

theorem SetEffectiveConfiguration_internal_entry_point_witness :
    ((∃ api, gcPingWeb.API = some api ∧ api.EntryPoint = "traefik") ∨
      (∃ ping, gcPingWeb.Ping = some ping ∧ ping.EntryPoint = "traefik") ∨
      (∃ m p, gcPingWeb.Metrics = some m ∧ m.Prometheus = some p ∧ p.EntryPoint = "traefik") ∨
      (∃ rest, gcPingWeb.Rest = some rest ∧ rest.EntryPoint = "traefik")) ∧
    List.lookup "traefik" gcPingWeb.EntryPoints = none ∧
    List.lookup "traefik" (SetEffectiveConfiguration gcPingWeb "traefik.toml").EntryPoints =
      some { Address := ":8080", TLS := none, Redirect := none,
             ForwardedHeaders := some { Insecure := false, TrustedIPs := [] } } ∧
    List.lookup "traefik" gcInternalWithTLS.EntryPoints =
      some { Address := ":9000", TLS := some { Certificates := [exampleCertificate] } } ∧
    ∃ ep', List.lookup "traefik"
        (SetEffectiveConfiguration gcInternalWithTLS "traefik.toml").EntryPoints = some ep' ∧
      ep'.Address = ":9000" ∧
      ((some { Certificates := [exampleCertificate] } : Option TLS) = none → ep'.TLS = none) ∧
      (∀ tls : TLS, (some { Certificates := [exampleCertificate] } : Option TLS) = some tls →
        ep'.TLS = some { tls with
          DefaultCertificate := tls.DefaultCertificate <|> tls.Certificates.head? }) :=
  ⟨Or.inr (Or.inl ⟨_, rfl, rfl⟩), rfl,
    (SetEffectiveConfiguration_internal_entry_point gcPingWeb "traefik.toml").1
      (Or.inr (Or.inl ⟨_, rfl, rfl⟩)) rfl,
    rfl,
    (SetEffectiveConfiguration_internal_entry_point gcInternalWithTLS "traefik.toml").2
      { Address := ":9000", TLS := some { Certificates := [exampleCertificate] } } rfl⟩

/-! ### The CA server normalizer -/

theorem hasPrefix_eq_true (s p : List Char) (h : hasPrefix s p = true) :
    s = p ++ s.drop p.length := by
  induction p generalizing s with
  | nil => rfl
  | cons c p ih =>
    cases s with
    | nil => simp [hasPrefix] at h
    | cons d s =>
      simp only [hasPrefix, Bool.and_eq_true, beq_iff_eq] at h
      obtain ⟨rfl, h⟩ := h
      simp only [List.length_cons, List.drop_succ_cons, List.cons_append, List.cons.injEq, true_and]
      exact ih s h

theorem replaceFirst_v01 (r : List Char) :
    replaceFirst "v01".data "v02".data ("https://acme-v01.api.letsencrypt.org".data ++ r) =
      "https://acme-v02.api.letsencrypt.org".data ++ r :=
  rfl

theorem replaceFirst_staging (r : List Char) :
    replaceFirst "https://acme-staging.api.letsencrypt.org".data
        "https://acme-staging-v02.api.letsencrypt.org".data
        ("https://acme-staging.api.letsencrypt.org".data ++ r) =
      "https://acme-staging-v02.api.letsencrypt.org".data ++ r := by
  simp [replaceFirst, hasPrefix]

theorem hasPrefix_v02 (r : List Char) :
    hasPrefix ("https://acme-v02.api.letsencrypt.org".data ++ r)
        "https://acme-v01.api.letsencrypt.org".data = false ∧
      hasPrefix ("https://acme-v02.api.letsencrypt.org".data ++ r)
        "https://acme-staging.api.letsencrypt.org".data = false :=
  ⟨rfl, rfl⟩

theorem hasPrefix_staging_v02 (r : List Char) :
    hasPrefix ("https://acme-staging-v02.api.letsencrypt.org".data ++ r)
        "https://acme-v01.api.letsencrypt.org".data = false ∧
      hasPrefix ("https://acme-staging-v02.api.letsencrypt.org".data ++ r)
        "https://acme-staging.api.letsencrypt.org".data = false :=
  ⟨rfl, rfl⟩

theorem getSafeACMECAServer_v01 (r : List Char) :
    getSafeACMECAServer (String.mk ("https://acme-v01.api.letsencrypt.org".data ++ r)) =
      String.mk ("https://acme-v02.api.letsencrypt.org".data ++ r) := by
  have hl : ¬ (String.mk ("https://acme-v01.api.letsencrypt.org".data ++ r)).length = 0 := by
    simp
  have hp : hasPrefix (String.mk ("https://acme-v01.api.letsencrypt.org".data ++ r)).data
      "https://acme-v01.api.letsencrypt.org".data = true := by
    simp [hasPrefix]
  unfold getSafeACMECAServer
  rw [if_neg hl, if_pos hp]
  exact congrArg String.mk (replaceFirst_v01 r)

theorem getSafeACMECAServer_staging (r : List Char) :
    getSafeACMECAServer (String.mk ("https://acme-staging.api.letsencrypt.org".data ++ r)) =
      String.mk ("https://acme-staging-v02.api.letsencrypt.org".data ++ r) := by
  have hl :
      ¬ (String.mk ("https://acme-staging.api.letsencrypt.org".data ++ r)).length = 0 := by
    simp
  have hp : hasPrefix (String.mk ("https://acme-staging.api.letsencrypt.org".data ++ r)).data
      "https://acme-staging.api.letsencrypt.org".data = true := by
    simp [hasPrefix]
  have hq : ¬ hasPrefix (String.mk ("https://acme-staging.api.letsencrypt.org".data ++ r)).data
      "https://acme-v01.api.letsencrypt.org".data = true := by
    simp [hasPrefix]
  unfold getSafeACMECAServer
  rw [if_neg hl, if_neg hq, if_pos hp]
  exact congrArg String.mk (replaceFirst_staging r)

theorem getSafeACMECAServer_fixed (s : String) (h0 : s.length ≠ 0)
    (h1 : hasPrefix s.data "https://acme-v01.api.letsencrypt.org".data = false)
    (h2 : hasPrefix s.data "https://acme-staging.api.letsencrypt.org".data = false) :
    getSafeACMECAServer s = s := by
  unfold getSafeACMECAServer
  rw [if_neg h0, h1, h2]
  rfl

theorem getSafeACMECAServer_idempotent (s : String) :
    getSafeACMECAServer (getSafeACMECAServer s) = getSafeACMECAServer s := by
  by_cases h0 : s.length = 0
  · have : getSafeACMECAServer s = DefaultAcmeCAServer := by
      unfold getSafeACMECAServer
      rw [if_pos h0]
    rw [this]
    decide
  · cases h1 : hasPrefix s.data "https://acme-v01.api.letsencrypt.org".data
    · cases h2 : hasPrefix s.data "https://acme-staging.api.letsencrypt.org".data
      · rw [getSafeACMECAServer_fixed s h0 h1 h2, getSafeACMECAServer_fixed s h0 h1 h2]
      · have hs : s = String.mk ("https://acme-staging.api.letsencrypt.org".data ++
            s.data.drop "https://acme-staging.api.letsencrypt.org".data.length) := by
          rw [← hasPrefix_eq_true _ _ h2]
        rw [hs, getSafeACMECAServer_staging]
        exact getSafeACMECAServer_fixed _ (by simp) (hasPrefix_staging_v02 _).1
          (hasPrefix_staging_v02 _).2
    · have hs : s = String.mk ("https://acme-v01.api.letsencrypt.org".data ++
          s.data.drop "https://acme-v01.api.letsencrypt.org".data.length) := by
        rw [← hasPrefix_eq_true _ _ h1]
      rw [hs, getSafeACMECAServer_v01]
      exact getSafeACMECAServer_fixed _ (by simp) (hasPrefix_v02 _).1 (hasPrefix_v02 _).2

/-! ### Idempotence of `SetEffectiveConfiguration` -/

theorem resolveACME_idempotent (a : ACME) : resolveACME (resolveACME a) = resolveACME a := by
  obtain ⟨_, _, _, _, _, _, _, _, d, h, t, _⟩ := a
  cases d <;> cases h <;> cases t <;> simp [resolveACME, getSafeACMECAServer_idempotent]

theorem resolveTracing_idempotent (t : Tracing) :
    resolveTracing (resolveTracing t) = resolveTracing t := by
  obtain ⟨hzj, hdj, hdz⟩ := backendNames_distinct
  obtain ⟨b, j, z, d⟩ := t
  by_cases h1 : b = jaegerName
  · subst h1; simp [resolveTracing]
  · by_cases h2 : b = zipkinName
    · subst h2; simp [resolveTracing, hzj]
    · by_cases h3 : b = datadogName
      · subst h3; simp [resolveTracing, hdj, hdz]
      · simp [resolveTracing, h1, h2, h3]

theorem setEntryPointDefaults_idempotent (ep : EntryPoint) :
    setEntryPointDefaults (setEntryPointDefaults ep) = setEntryPointDefaults ep := by
  obtain ⟨a, t, r, f⟩ := ep
  cases f <;> rcases t with _ | ⟨⟨_ | _, _ | _⟩⟩ <;> rfl

theorem setRancherDefaults_idempotent (r : RancherProvider) :
    setRancherDefaults (setRancherDefaults r) = setRancherDefaults r := by
  have hl : ¬ ("latest" : String).length = 0 := by decide
  obtain ⟨e, a, k, api, m⟩ := r
  by_cases ha : 0 < a.length <;> by_cases he : 0 < e.length <;> by_cases hk : 0 < k.length <;>
    rcases api with _ | api <;> rcases m with _ | ⟨⟨ip, pre⟩⟩ <;>
    first
    | (simp [setRancherDefaults, ha, he, hk]; done)
    | (by_cases hp : pre.length = 0 <;> simp [setRancherDefaults, ha, he, hk, hp, hl])

theorem withSynthesized_ne_nil (internal : Bool) (eps : EntryPoints) :
    withSynthesized internal eps ≠ [] := by
  have h0 : withSynthesized false eps ≠ [] := by
    cases eps <;> simp [withSynthesized]
  cases internal
  · exact h0
  · rw [withSynthesized_true]
    cases List.lookup DefaultInternalEntryPointName (withSynthesized false eps) <;> simp [h0]

theorem lookup_withSynthesized_true (eps : EntryPoints) :
    (List.lookup DefaultInternalEntryPointName (withSynthesized true eps)).isSome = true := by
  rw [withSynthesized_true]
  cases h : List.lookup DefaultInternalEntryPointName (withSynthesized false eps) with
  | none => simp [lookup_append_singleton_of_none _ _ _ h]
  | some ep => simp [h]

theorem withSynthesized_fixed (internal : Bool) (eps : EntryPoints) (hne : eps ≠ [])
    (hl : internal = true → (List.lookup DefaultInternalEntryPointName eps).isSome = true) :
    withSynthesized internal eps = eps := by
  have h0 : withSynthesized false eps = eps := by
    cases eps with
    | nil => exact absurd rfl hne
    | cons _ _ => rfl
  cases internal
  · exact h0
  · rw [withSynthesized_true, h0]
    cases h : List.lookup DefaultInternalEntryPointName eps with
    | none => simp [h] at hl
    | some _ => rfl

theorem entryPointsAfter_ne_nil (internal : Bool) (eps : EntryPoints) :
    entryPointsAfter internal eps ≠ [] := by
  simp [entryPointsAfter, withSynthesized_ne_nil]

theorem entryPointsAfter_idempotent (internal : Bool) (eps : EntryPoints) :
    entryPointsAfter internal (entryPointsAfter internal eps) = entryPointsAfter internal eps := by
  have hfix : withSynthesized internal (entryPointsAfter internal eps) =
      entryPointsAfter internal eps := by
    apply withSynthesized_fixed _ _ (entryPointsAfter_ne_nil _ _)
    rintro rfl
    unfold entryPointsAfter
    rw [lookup_map_snd]
    simpa using lookup_withSynthesized_true eps
  have houter : entryPointsAfter internal (entryPointsAfter internal eps) =
      (withSynthesized internal (entryPointsAfter internal eps)).map
        (fun (e : String × EntryPoint) => (e.1, setEntryPointDefaults e.2)) := rfl
  rw [houter, hfix]
  unfold entryPointsAfter
  simp [List.map_map, Function.comp_def, setEntryPointDefaults_idempotent]

theorem refersToInternalEntryPoint_SetEffectiveConfiguration (gc : GlobalConfiguration)
    (configFile : String) :
    refersToInternalEntryPoint (SetEffectiveConfiguration gc configFile) =
      refersToInternalEntryPoint gc := by
  apply refersToInternalEntryPoint_congr <;> rw [SetEffectiveConfiguration_eq]
  simp [Function.comp_def]

/-- C9: `SetEffectiveConfiguration` is idempotent on the aggregate: for every configuration and
every configuration file path, a second call with the same path returns the aggregate of the
first call, field by field. -/
theorem SetEffectiveConfiguration_idempotent (gc : GlobalConfiguration) (configFile : String) :
    SetEffectiveConfiguration (SetEffectiveConfiguration gc configFile) configFile =
      SetEffectiveConfiguration gc configFile := by
  have hr := refersToInternalEntryPoint_SetEffectiveConfiguration gc configFile
  rw [SetEffectiveConfiguration_eq (SetEffectiveConfiguration gc configFile), hr]
  rw [SetEffectiveConfiguration_eq gc configFile]
  have hne := entryPointsAfter_ne_nil (refersToInternalEntryPoint gc) gc.EntryPoints
  simp [entryPointsAfter_idempotent, hne, Function.comp_def, resolveACME_idempotent,
    resolveTracing_idempotent, setRancherDefaults_idempotent]

/-- The configuration `gcFull` after `SetEffectiveConfiguration`: every block has acted. -/
theorem SetEffectiveConfiguration_gcFull :
    SetEffectiveConfiguration gcFull "traefik.toml" =
      { Debug := true
        LifeCycle := some {}
        EntryPoints :=
          [("https", { Address := ":443"
                       TLS := some { Certificates := [exampleCertificate]
                                     DefaultCertificate := some exampleCertificate }
                       ForwardedHeaders := some {} }),
           ("traefik", { Address := ":8080", ForwardedHeaders := some {} })]
        ACME := some { acmeHTTPTLS with
          CAServer := "https://acme-v02.api.letsencrypt.org/directory", HTTPChallenge := none }
        Tracing := some { Backend := "jaeger", Jaeger := some defaultJaeger }
        File := some { Directory := "/etc/traefik", TraefikFile := "traefik.toml" }
        Rancher := some { AccessKey := "A", SecretKey := "B", Endpoint := "E"
                          API := some { AccessKey := "A", SecretKey := "B", Endpoint := "E" }
                          Metadata := some { Prefix := "latest" } }
        API := some { EntryPoint := "traefik", Debug := true } } := by
  decide

/-! ### The validator -/

/-- C10: `ValidateConfiguration` fails if and only if ACME is present and its entry-point name
is not a key of the entry-point set or the entry point of that name has no TLS settings; it
never fails when ACME is absent, and its outcome is the same for two configurations that have
the same entry-point set and the same ACME entry-point reference, whatever their other
fields. -/
theorem ValidateConfiguration_fails_iff (gc gc' : GlobalConfiguration) :
    ((∃ msg, ValidateConfiguration gc = .error msg) ↔
      ∃ acme, gc.ACME = some acme ∧
        (List.lookup acme.EntryPoint gc.EntryPoints = none ∨
          ∃ entryPoint, List.lookup acme.EntryPoint gc.EntryPoints = some entryPoint ∧
            entryPoint.TLS = none)) ∧
    ((∀ msg, ValidateConfiguration gc ≠ .error msg) ↔ ValidateConfiguration gc = .ok ()) ∧
    (gc.ACME = none → ValidateConfiguration gc = .ok ()) ∧
    (gc'.EntryPoints = gc.EntryPoints →
      gc'.ACME.map (·.EntryPoint) = gc.ACME.map (·.EntryPoint) →
      ValidateConfiguration gc' = ValidateConfiguration gc) := by
  refine ⟨?_, ?_, ?_, ?_⟩
  · cases h : gc.ACME with
    | none => simp [ValidateConfiguration, h]
    | some acme =>
      cases hl : List.lookup acme.EntryPoint gc.EntryPoints with
      | none =>
        have hv : ValidateConfiguration gc = .error (.unknownEntryPoint acme.EntryPoint) := by
          simp only [ValidateConfiguration, h, hl]
        exact ⟨fun _ => ⟨acme, rfl, Or.inl hl⟩, fun _ => ⟨_, hv⟩⟩
      | some ep =>
        cases ht : ep.TLS with
        | none =>
          have hv : ValidateConfiguration gc =
              .error (.entryPointWithoutTLS acme.EntryPoint) := by
            simp only [ValidateConfiguration, h, hl, ht]
          exact ⟨fun _ => ⟨acme, rfl, Or.inr ⟨ep, hl, ht⟩⟩, fun _ => ⟨_, hv⟩⟩
        | some tls =>
          have hv : ValidateConfiguration gc = .ok () := by
            simp only [ValidateConfiguration, h, hl, ht]
          constructor
          · rintro ⟨msg, hm⟩
            rw [hv] at hm
            cases hm
          · rintro ⟨acme', ha', hor⟩
            cases ha'
            rcases hor with hn | ⟨ep', hs, hn⟩
            · rw [hl] at hn
              cases hn
            · rw [hl] at hs
              cases hs
              rw [ht] at hn
              cases hn
  · cases hv : ValidateConfiguration gc with
    | error msg => simp
    | ok u => simp
  · intro h
    simp [ValidateConfiguration, h]
  · intro he ha
    unfold ValidateConfiguration
    rw [he]
    cases h : gc.ACME <;> cases h' : gc'.ACME <;> simp [h, h'] at ha ⊢
    rw [ha]

theorem ValidateConfiguration_fails_iff_witness :
    ValidateConfiguration gcACMEDangling = .error (.unknownEntryPoint "https") ∧
    ValidateConfiguration gcACMENoTLS = .error (.entryPointWithoutTLS "https") ∧
    ValidateConfiguration gcACMEValid = .ok () ∧
    ({ EntryPoints := [("http", { Address := ":80" })] } : GlobalConfiguration).ACME = none ∧
    ValidateConfiguration { EntryPoints := [("http", { Address := ":80" })] } = .ok () ∧
    gcACMEValid.EntryPoints = { gcACMEValid with Debug := true, LogLevel := "DEBUG" }.EntryPoints ∧
    ValidateConfiguration gcACMEValid =
      ValidateConfiguration { gcACMEValid with Debug := true, LogLevel := "DEBUG" } :=
  ⟨rfl, rfl, rfl, rfl,
    (ValidateConfiguration_fails_iff { EntryPoints := [("http", { Address := ":80" })] }
      gcACMEValid).2.2.1 rfl,
    rfl,
    (ValidateConfiguration_fails_iff { gcACMEValid with Debug := true, LogLevel := "DEBUG" }
      gcACMEValid).2.2.2 rfl rfl⟩

/-! ### The ACME provider initializer -/

/-- C11: for every configuration with ACME present, a non-empty storage location and no
cluster block, `InitACMEProvider` returns no error and a provider whose domains (same entries
in the same order, names as they are), email, key type, storage, CA server and entry-point
reference are those of the ACME block; the ACME field of the aggregate is absent afterwards
and nothing else has changed; a second call returns no provider and no error and leaves the
aggregate as it is. -/
theorem InitACMEProvider_converts_once (gc : GlobalConfiguration) (acme : ACME)
    (h : gc.ACME = some acme) (hs : acme.Storage ≠ "") (hc : gc.Cluster = none) :
    ∃ p gc', InitACMEProvider gc = (some p, none, gc') ∧
      p.Configuration.Domains = acme.Domains ∧
      p.Configuration.Email = acme.Email ∧
      p.Configuration.KeyType = acme.KeyType ∧
      p.Configuration.Storage = acme.Storage ∧
      p.Configuration.CAServer = acme.CAServer ∧
      p.Configuration.EntryPoint = acme.EntryPoint ∧
      gc'.ACME = none ∧
      gc' = { gc with ACME := none } ∧
      InitACMEProvider gc' = (none, none, gc') := by
  refine ⟨_, _, InitACMEProvider_of_storage gc acme h hs hc, ?_⟩
  simp [convertACMEChallenge_eq, InitACMEProvider]

theorem InitACMEProvider_converts_once_witness :
    ({ ACME := some acmeWithDomains } : GlobalConfiguration).ACME = some acmeWithDomains ∧
    acmeWithDomains.Storage ≠ "" ∧
    ({ ACME := some acmeWithDomains } : GlobalConfiguration).Cluster = none ∧
    ∃ p gc', InitACMEProvider { ACME := some acmeWithDomains } = (some p, none, gc') ∧
      p.Configuration.Domains = acmeWithDomains.Domains ∧
      p.Configuration.Email = acmeWithDomains.Email ∧
      p.Configuration.KeyType = acmeWithDomains.KeyType ∧
      p.Configuration.Storage = acmeWithDomains.Storage ∧
      p.Configuration.CAServer = acmeWithDomains.CAServer ∧
      p.Configuration.EntryPoint = acmeWithDomains.EntryPoint ∧
      gc'.ACME = none ∧
      gc' = { ({ ACME := some acmeWithDomains } : GlobalConfiguration) with ACME := none } ∧
      InitACMEProvider gc' = (none, none, gc') :=
  ⟨rfl, by decide, rfl,
    InitACMEProvider_converts_once { ACME := some acmeWithDomains } acmeWithDomains rfl
      (by decide) rfl⟩

/-- C12: for every configuration with ACME present and an empty storage location,
`InitACMEProvider` returns an error and no provider, the ACME field of the aggregate is absent
afterwards and every other field of the aggregate is unchanged. -/
theorem InitACMEProvider_empty_storage (gc : GlobalConfiguration) (acme : ACME)
    (h : gc.ACME = some acme) (hs : acme.Storage = "") :
    ∃ err gc', InitACMEProvider gc = (none, some err, gc') ∧
      err = "unable to initialize ACME provider with no storage location for the certificates" ∧
      gc'.ACME = none ∧
      gc' = { gc with ACME := none } := by
  have hs' : acme.Storage.length = 0 := (length_eq_zero_iff _).2 hs
  refine ⟨_, _, ?_, rfl, rfl, rfl⟩
  simp only [InitACMEProvider, h, hs', if_true]

theorem InitACMEProvider_empty_storage_witness :
    ({ ACME := some acmeNoStorage, Debug := true } : GlobalConfiguration).ACME =
      some acmeNoStorage ∧
    acmeNoStorage.Storage = "" ∧
    ∃ err gc', InitACMEProvider { ACME := some acmeNoStorage, Debug := true } =
        (none, some err, gc') ∧
      err = "unable to initialize ACME provider with no storage location for the certificates" ∧
      gc'.ACME = none ∧
      gc' = { ({ ACME := some acmeNoStorage, Debug := true } : GlobalConfiguration) with
        ACME := none } :=
  ⟨rfl, rfl,
    InitACMEProvider_empty_storage { ACME := some acmeNoStorage, Debug := true } acmeNoStorage
      rfl rfl⟩

/-- C13, as stated, fails: with ACME present, the cluster block present and an empty storage
location, `InitACMEProvider` returns an error and clears the ACME block. -/
theorem InitACMEProvider_cluster_empty_storage :
    ({ ACME := some acmeNoStorage, Cluster := some exampleCluster } : GlobalConfiguration).ACME =
      some acmeNoStorage ∧
    ({ ACME := some acmeNoStorage, Cluster := some exampleCluster } :
      GlobalConfiguration).Cluster = some exampleCluster ∧
    InitACMEProvider { ACME := some acmeNoStorage, Cluster := some exampleCluster } =
      (none,
        some "unable to initialize ACME provider with no storage location for the certificates",
        { Cluster := some exampleCluster }) ∧
    (InitACMEProvider { ACME := some acmeNoStorage, Cluster := some exampleCluster }).2.1 ≠
      none ∧
    (InitACMEProvider { ACME := some acmeNoStorage, Cluster := some exampleCluster }).2.2.ACME ≠
      some acmeNoStorage := by
  decide

/-- C13, amended: for every configuration with ACME present with a non-empty storage location
and the cluster block present, `InitACMEProvider` performs no conversion: it returns no
provider and no error, and leaves the aggregate, the ACME block included, as it is. -/
theorem InitACMEProvider_cluster_untouched (gc : GlobalConfiguration) (acme : ACME)
    (cluster : Foreign) (h : gc.ACME = some acme) (hs : acme.Storage ≠ "")
    (hc : gc.Cluster = some cluster) :
    InitACMEProvider gc = (none, none, gc) ∧ (InitACMEProvider gc).2.2.ACME = some acme := by
  have hs' : ¬ acme.Storage.length = 0 := fun h0 => hs ((length_eq_zero_iff _).1 h0)
  have he : InitACMEProvider gc = (none, none, gc) := by
    simp only [InitACMEProvider, h, hc, hs', if_false]
  exact ⟨he, by rw [he]; exact h⟩

theorem InitACMEProvider_cluster_untouched_witness :
    ({ ACME := some acmeWithDomains, Cluster := some exampleCluster } :
      GlobalConfiguration).ACME = some acmeWithDomains ∧
    acmeWithDomains.Storage ≠ "" ∧
    ({ ACME := some acmeWithDomains, Cluster := some exampleCluster } :
      GlobalConfiguration).Cluster = some exampleCluster ∧
    InitACMEProvider { ACME := some acmeWithDomains, Cluster := some exampleCluster } =
      (none, none, { ACME := some acmeWithDomains, Cluster := some exampleCluster }) ∧
    (InitACMEProvider { ACME := some acmeWithDomains, Cluster := some exampleCluster }).2.2.ACME =
      some acmeWithDomains :=
  ⟨rfl, by decide, rfl,
    InitACMEProvider_cluster_untouched
      { ACME := some acmeWithDomains, Cluster := some exampleCluster } acmeWithDomains
      exampleCluster rfl (by decide) rfl⟩

/-! ### Entry points after defaulting -/

theorem lookup_append_of_some (k : String) (ep : EntryPoint) (eps tail : EntryPoints)
    (h : List.lookup k eps = some ep) : List.lookup k (eps ++ tail) = some ep := by
  induction eps with
  | nil => simp at h
  | cons e eps ih =>
    obtain ⟨n, v⟩ := e
    simp only [List.lookup_cons] at h
    simp only [List.cons_append, List.lookup_cons]
    cases hk : k == n
    · simp only [hk] at h
      exact ih h
    · simpa [hk] using h

theorem mem_of_lookup_eq_some (k : String) (ep : EntryPoint) (eps : EntryPoints)
    (h : List.lookup k eps = some ep) : (k, ep) ∈ eps := by
  induction eps with
  | nil => simp at h
  | cons e eps ih =>
    obtain ⟨n, v⟩ := e
    simp only [List.lookup_cons] at h
    cases hk : k == n
    · simp only [hk] at h
      exact List.mem_cons_of_mem _ (ih h)
    · simp only [hk, Option.some.injEq] at h
      have hkn : k = n := by simpa using hk
      subst hkn
      subst h
      exact List.mem_cons_self _ _

theorem lookup_withSynthesized_of_some (internal : Bool) (k : String) (ep : EntryPoint)
    (eps : EntryPoints) (h : List.lookup k eps = some ep) :
    List.lookup k (withSynthesized internal eps) = some ep := by
  have h0 : withSynthesized false eps = eps := by
    cases eps with
    | nil => simp at h
    | cons _ _ => rfl
  cases internal
  · rw [h0]; exact h
  · rw [withSynthesized_true, h0]
    cases List.lookup DefaultInternalEntryPointName eps with
    | none => exact lookup_append_of_some _ _ _ _ h
    | some _ => exact h

theorem lookup_SetEffectiveConfiguration (gc : GlobalConfiguration) (configFile : String)
    (k : String) (ep : EntryPoint) (h : List.lookup k gc.EntryPoints = some ep) :
    List.lookup k (SetEffectiveConfiguration gc configFile).EntryPoints =
      some (setEntryPointDefaults ep) := by
  simp only [SetEffectiveConfiguration_eq, entryPointsAfter]
  rw [lookup_map_snd, lookup_withSynthesized_of_some _ _ ep _ h]
  rfl

theorem mem_SetEffectiveConfiguration (gc : GlobalConfiguration) (configFile : String)
    (k : String) (ep : EntryPoint)
    (h : (k, ep) ∈ (SetEffectiveConfiguration gc configFile).EntryPoints) :
    ∃ ep0, ep = setEntryPointDefaults ep0 := by
  simp only [SetEffectiveConfiguration_eq, entryPointsAfter, List.mem_map] at h
  obtain ⟨e, -, he⟩ := h
  exact ⟨e.2, (congrArg Prod.snd he).symm⟩

theorem setEntryPointDefaults_ForwardedHeaders (ep : EntryPoint) :
    (setEntryPointDefaults ep).ForwardedHeaders = some (ep.ForwardedHeaders.getD {}) := by
  obtain ⟨a, t, r, f⟩ := ep
  cases f <;> rcases t with _ | ⟨⟨_ | _, _ | _⟩⟩ <;> rfl

theorem setEntryPointDefaults_TLS (ep : EntryPoint) :
    (setEntryPointDefaults ep).TLS =
      ep.TLS.map (fun tls =>
        { tls with DefaultCertificate := tls.DefaultCertificate <|> tls.Certificates.head? }) := by
  obtain ⟨a, t, r, f⟩ := ep
  cases f <;> rcases t with _ | ⟨⟨_ | _, _ | _⟩⟩ <;> rfl

/-- C14: after `SetEffectiveConfiguration`, for every configuration, every entry point of the
entry-point set, configured or synthesized, has a forwarded-headers policy, and the policy of a
configured entry point that had one is unchanged. -/
theorem SetEffectiveConfiguration_forwarded_headers (gc : GlobalConfiguration)
    (configFile : String) :
    (∀ name ep, (name, ep) ∈ (SetEffectiveConfiguration gc configFile).EntryPoints →
      ep.ForwardedHeaders ≠ none) ∧
    (∀ name ep, List.lookup name (SetEffectiveConfiguration gc configFile).EntryPoints = some ep →
      ep.ForwardedHeaders ≠ none) ∧
    (∀ name ep policy, List.lookup name gc.EntryPoints = some ep →
      ep.ForwardedHeaders = some policy →
      ∃ ep', List.lookup name (SetEffectiveConfiguration gc configFile).EntryPoints = some ep' ∧
        ep'.ForwardedHeaders = some policy) := by
  have hmem : ∀ name ep, (name, ep) ∈ (SetEffectiveConfiguration gc configFile).EntryPoints →
      ep.ForwardedHeaders ≠ none := by
    intro name ep h
    obtain ⟨ep0, rfl⟩ := mem_SetEffectiveConfiguration gc configFile name ep h
    simp [setEntryPointDefaults_ForwardedHeaders]
  refine ⟨hmem, ?_, ?_⟩
  · intro name ep h
    exact hmem name ep (mem_of_lookup_eq_some _ _ _ h)
  · intro name ep policy h hp
    refine ⟨_, lookup_SetEffectiveConfiguration gc configFile name ep h, ?_⟩
    simp [setEntryPointDefaults_ForwardedHeaders, hp]

theorem SetEffectiveConfiguration_forwarded_headers_witness :
    List.lookup "websecure" gcTwoEntryPoints.EntryPoints =
      some { Address := ":8443"
             TLS := some { Certificates := [exampleCertificate,
                                            { CertFile := "other.crt", KeyFile := "other.key" }] }
             ForwardedHeaders := some { Insecure := true, TrustedIPs := ["10.0.0.0/8"] } } ∧
    (∃ ep', List.lookup "websecure"
        (SetEffectiveConfiguration gcTwoEntryPoints "traefik.toml").EntryPoints = some ep' ∧
      ep'.ForwardedHeaders = some { Insecure := true, TrustedIPs := ["10.0.0.0/8"] }) ∧
    List.lookup "web" (SetEffectiveConfiguration gcTwoEntryPoints "traefik.toml").EntryPoints =
      some { Address := ":8000", ForwardedHeaders := some {} } ∧
    ({ Address := ":8000", ForwardedHeaders := some {} } : EntryPoint).ForwardedHeaders ≠ none :=
  ⟨rfl,
    (SetEffectiveConfiguration_forwarded_headers gcTwoEntryPoints "traefik.toml").2.2
      "websecure" _ _ rfl rfl,
    by decide,
    (SetEffectiveConfiguration_forwarded_headers gcTwoEntryPoints "traefik.toml").2.1
      "web" _ (by decide)⟩

/-- C15: after `SetEffectiveConfiguration`, an entry point that had TLS settings still has
them, with the same certificate list; with at least one certificate and no default certificate
the default certificate is the first certificate of the list; a default certificate that was
set is unchanged; with an empty certificate list and no default certificate there is still no
default certificate. -/
theorem SetEffectiveConfiguration_default_certificate (gc : GlobalConfiguration)
    (configFile : String) (name : String) (ep : EntryPoint) (tls : TLS)
    (h : List.lookup name gc.EntryPoints = some ep) (ht : ep.TLS = some tls) :
    ∃ ep' tls', List.lookup name (SetEffectiveConfiguration gc configFile).EntryPoints = some ep' ∧
      ep'.TLS = some tls' ∧
      tls'.Certificates = tls.Certificates ∧
      (∀ first rest, tls.DefaultCertificate = none → tls.Certificates = first :: rest →
        tls'.DefaultCertificate = some first) ∧
      (∀ cert, tls.DefaultCertificate = some cert → tls'.DefaultCertificate = some cert) ∧
      (tls.DefaultCertificate = none → tls.Certificates = [] →
        tls'.DefaultCertificate = none) := by
  refine ⟨setEntryPointDefaults ep,
    { tls with DefaultCertificate := tls.DefaultCertificate <|> tls.Certificates.head? },
    lookup_SetEffectiveConfiguration gc configFile name ep h, ?_, ?_⟩
  · rw [setEntryPointDefaults_TLS, ht]
    rfl
  · obtain ⟨certs, dflt⟩ := tls
    refine ⟨rfl, ?_, ?_, ?_⟩
    · rintro first rest hd hc
      simp only at hd hc
      subst hd hc
      rfl
    · rintro cert hd
      simp only at hd
      subst hd
      rfl
    · rintro hd hc
      simp only at hd hc
      subst hd hc
      rfl

theorem SetEffectiveConfiguration_default_certificate_witness :
    List.lookup "websecure" gcTwoEntryPoints.EntryPoints =
      some { Address := ":8443"
             TLS := some { Certificates := [exampleCertificate,
                                            { CertFile := "other.crt", KeyFile := "other.key" }] }
             ForwardedHeaders := some { Insecure := true, TrustedIPs := ["10.0.0.0/8"] } } ∧
    ∃ ep' tls', List.lookup "websecure"
        (SetEffectiveConfiguration gcTwoEntryPoints "traefik.toml").EntryPoints = some ep' ∧
      ep'.TLS = some tls' ∧
      tls'.Certificates =
        [exampleCertificate, { CertFile := "other.crt", KeyFile := "other.key" }] ∧
      tls'.DefaultCertificate = some exampleCertificate := by
  obtain ⟨ep', tls', h1, h2, h3, h4, -, -⟩ :=
    SetEffectiveConfiguration_default_certificate gcTwoEntryPoints "traefik.toml" "websecure"
      { Address := ":8443"
        TLS := some { Certificates := [exampleCertificate,
                                       { CertFile := "other.crt", KeyFile := "other.key" }] }
        ForwardedHeaders := some { Insecure := true, TrustedIPs := ["10.0.0.0/8"] } }
      { Certificates := [exampleCertificate, { CertFile := "other.crt", KeyFile := "other.key" }] }
      rfl rfl
  exact ⟨rfl, ep', tls', h1, h2, h3, h4 _ _ rfl rfl⟩

/-! ### Rancher compatibility -/

theorem SetEffectiveConfiguration_Rancher (gc : GlobalConfiguration) (configFile : String) :
    (SetEffectiveConfiguration gc configFile).Rancher = gc.Rancher.map setRancherDefaults := by
  rw [SetEffectiveConfiguration_eq]

theorem setRancherDefaults_API (r : RancherProvider) :
    (setRancherDefaults r).API =
      if r.AccessKey.length > 0 || r.Endpoint.length > 0 || r.SecretKey.length > 0 then
        some (r.API.getD
          { AccessKey := r.AccessKey, SecretKey := r.SecretKey, Endpoint := r.Endpoint })
      else r.API := by
  obtain ⟨e, a, k, api, m⟩ := r
  by_cases ha : 0 < a.length <;> by_cases he : 0 < e.length <;> by_cases hk : 0 < k.length <;>
    rcases api with _ | api <;> rcases m with _ | ⟨⟨ip, pre⟩⟩ <;>
    first
    | (simp [setRancherDefaults, ha, he, hk]; done)
    | (by_cases hp : pre.length = 0 <;> simp [setRancherDefaults, ha, he, hk, hp])

theorem setRancherDefaults_flat (r : RancherProvider) :
    (setRancherDefaults r).AccessKey = r.AccessKey ∧
      (setRancherDefaults r).SecretKey = r.SecretKey ∧
      (setRancherDefaults r).Endpoint = r.Endpoint := by
  obtain ⟨e, a, k, api, m⟩ := r
  by_cases ha : 0 < a.length <;> by_cases he : 0 < e.length <;> by_cases hk : 0 < k.length <;>
    rcases api with _ | api <;> rcases m with _ | ⟨⟨ip, pre⟩⟩ <;>
    first
    | (simp [setRancherDefaults, ha, he, hk]; done)
    | (by_cases hp : pre.length = 0 <;> simp [setRancherDefaults, ha, he, hk, hp])

theorem length_pos_iff_ne_empty (s : String) : 0 < s.length ↔ s ≠ "" := by
  rw [Nat.pos_iff_ne_zero, ne_eq, length_eq_zero_iff]

/-- C16: for every configuration whose Rancher block has a non-empty flat access key, secret
key or endpoint and no nested API credential object, after `SetEffectiveConfiguration` the
nested object exists and its access key, secret key and endpoint are the three flat fields; a
nested object that was there is unchanged, whatever the flat fields; the flat fields themselves
are unchanged. -/
theorem SetEffectiveConfiguration_rancher_credentials (gc : GlobalConfiguration)
    (configFile : String) (r : RancherProvider) (h : gc.Rancher = some r) :
    ∃ r', (SetEffectiveConfiguration gc configFile).Rancher = some r' ∧
      (r.API = none → (r.AccessKey ≠ "" ∨ r.SecretKey ≠ "" ∨ r.Endpoint ≠ "") →
        r'.API =
          some { AccessKey := r.AccessKey, SecretKey := r.SecretKey, Endpoint := r.Endpoint }) ∧
      (∀ api, r.API = some api → r'.API = some api) ∧
      r'.AccessKey = r.AccessKey ∧ r'.SecretKey = r.SecretKey ∧ r'.Endpoint = r.Endpoint := by
  refine ⟨setRancherDefaults r, by simp [SetEffectiveConfiguration_Rancher, h], ?_, ?_,
    setRancherDefaults_flat r⟩
  · intro hn hf
    have hc : (decide (r.AccessKey.length > 0) || decide (r.Endpoint.length > 0) ||
        decide (r.SecretKey.length > 0)) = true := by
      simp only [gt_iff_lt, Bool.or_eq_true, decide_eq_true_eq, length_pos_iff_ne_empty]
      tauto
    rw [setRancherDefaults_API, if_pos hc, hn]
    rfl
  · intro api ha
    rw [setRancherDefaults_API, ha]
    split <;> rfl

theorem SetEffectiveConfiguration_rancher_credentials_witness :
    ({ Rancher := some rancherFlat } : GlobalConfiguration).Rancher = some rancherFlat ∧
    rancherFlat.API = none ∧
    (rancherFlat.AccessKey ≠ "" ∨ rancherFlat.SecretKey ≠ "" ∨ rancherFlat.Endpoint ≠ "") ∧
    ({ Rancher := some rancherNested } : GlobalConfiguration).Rancher = some rancherNested ∧
    rancherNested.API = some { AccessKey := "X", SecretKey := "Y", Endpoint := "Z" } ∧
    (∃ r', (SetEffectiveConfiguration { Rancher := some rancherFlat } "traefik.toml").Rancher =
        some r' ∧
      r'.API = some { AccessKey := "A", SecretKey := "B", Endpoint := "E" }) ∧
    (∃ r', (SetEffectiveConfiguration { Rancher := some rancherNested } "traefik.toml").Rancher =
        some r' ∧
      r'.API = some { AccessKey := "X", SecretKey := "Y", Endpoint := "Z" }) := by
  obtain ⟨r1, h1, h1a, -⟩ :=
    SetEffectiveConfiguration_rancher_credentials { Rancher := some rancherFlat } "traefik.toml"
      rancherFlat rfl
  obtain ⟨r2, h2, -, h2b, -⟩ :=
    SetEffectiveConfiguration_rancher_credentials { Rancher := some rancherNested }
      "traefik.toml" rancherNested rfl
  exact ⟨rfl, rfl, Or.inl (by decide), rfl, rfl, ⟨r1, h1, h1a rfl (Or.inl (by decide))⟩,
    ⟨r2, h2, h2b _ rfl⟩⟩

/-! ### The CA server normalizer, case by case -/

theorem hasPrefix_append (p r : List Char) : hasPrefix (p ++ r) p = true := by
  induction p with
  | nil => cases r <;> rfl
  | cons c p ih => simp [hasPrefix, ih]

theorem hasPrefix_iff (s p : String) :
    hasPrefix s.data p.data = true ↔ ∃ r : String, s = p ++ r := by
  constructor
  · intro h
    refine ⟨String.mk (s.data.drop p.data.length), ?_⟩
    apply String.ext
    rw [String.data_append]
    exact hasPrefix_eq_true _ _ h
  · rintro ⟨r, rfl⟩
    rw [String.data_append]
    exact hasPrefix_append _ _

/-- C17: for every string `s`, `getSafeACMECAServer` maps
"https://acme-v01.api.letsencrypt.org" followed by `s` to
"https://acme-v02.api.letsencrypt.org" followed by `s`: only the version segment of the prefix
is rewritten, a later "v01" in `s` stays. -/
theorem getSafeACMECAServer_v01_rewritten (s : String) :
    getSafeACMECAServer ("https://acme-v01.api.letsencrypt.org" ++ s) =
      "https://acme-v02.api.letsencrypt.org" ++ s ∧
    getSafeACMECAServer ("https://acme-v01.api.letsencrypt.org" ++ ("/v01/" ++ s)) =
      "https://acme-v02.api.letsencrypt.org" ++ ("/v01/" ++ s) ∧
    getSafeACMECAServer "https://acme-v01.api.letsencrypt.org/directory" =
      "https://acme-v02.api.letsencrypt.org/directory" := by
  have key : ∀ t : String, getSafeACMECAServer ("https://acme-v01.api.letsencrypt.org" ++ t) =
      "https://acme-v02.api.letsencrypt.org" ++ t := by
    intro t
    obtain ⟨l⟩ := t
    exact getSafeACMECAServer_v01 l
  exact ⟨key s, key _, by decide⟩

/-- C18: for every string `s`, `getSafeACMECAServer` maps
"https://acme-staging.api.letsencrypt.org" followed by `s` to
"https://acme-staging-v02.api.letsencrypt.org" followed by `s`: only the leading host name is
rewritten. -/
theorem getSafeACMECAServer_staging_rewritten (s : String) :
    getSafeACMECAServer ("https://acme-staging.api.letsencrypt.org" ++ s) =
      "https://acme-staging-v02.api.letsencrypt.org" ++ s ∧
    getSafeACMECAServer "https://acme-staging.api.letsencrypt.org/x" =
      "https://acme-staging-v02.api.letsencrypt.org/x" := by
  refine ⟨?_, by decide⟩
  obtain ⟨l⟩ := s
  exact getSafeACMECAServer_staging l

/-- C19: for every input that starts with neither "https://acme-v01.api.letsencrypt.org" nor
"https://acme-staging.api.letsencrypt.org", the result of `getSafeACMECAServer` is the input
when it is not empty and "https://acme-v02.api.letsencrypt.org/directory" when it is empty;
and for every input whatever the result is not the empty string. -/
theorem getSafeACMECAServer_other (s : String) :
    ((¬ ∃ r : String, s = "https://acme-v01.api.letsencrypt.org" ++ r) →
      (¬ ∃ r : String, s = "https://acme-staging.api.letsencrypt.org" ++ r) →
      (s ≠ "" → getSafeACMECAServer s = s) ∧
        (s = "" →
          getSafeACMECAServer s = "https://acme-v02.api.letsencrypt.org/directory")) ∧
    getSafeACMECAServer s ≠ "" := by
  have hempty : s.length = 0 → getSafeACMECAServer s = DefaultAcmeCAServer := by
    intro h0
    unfold getSafeACMECAServer
    rw [if_pos h0]
  constructor
  · intro h1 h2
    constructor
    · intro hne
      have h0 : s.length ≠ 0 := fun h => hne ((length_eq_zero_iff s).1 h)
      apply getSafeACMECAServer_fixed s h0
      · cases h : hasPrefix s.data "https://acme-v01.api.letsencrypt.org".data
        · rfl
        · exact absurd ((hasPrefix_iff _ _).1 h) h1
      · cases h : hasPrefix s.data "https://acme-staging.api.letsencrypt.org".data
        · rfl
        · exact absurd ((hasPrefix_iff _ _).1 h) h2
    · intro he
      rw [hempty ((length_eq_zero_iff s).2 he)]
      rfl
  · by_cases h0 : s.length = 0
    · rw [hempty h0]
      decide
    · cases h1 : hasPrefix s.data "https://acme-v01.api.letsencrypt.org".data
      · cases h2 : hasPrefix s.data "https://acme-staging.api.letsencrypt.org".data
        · rw [getSafeACMECAServer_fixed s h0 h1 h2]
          exact fun h => h0 ((length_eq_zero_iff s).2 h)
        · have hs : s = String.mk ("https://acme-staging.api.letsencrypt.org".data ++
              s.data.drop "https://acme-staging.api.letsencrypt.org".data.length) := by
            rw [← hasPrefix_eq_true _ _ h2]
          rw [hs, getSafeACMECAServer_staging]
          intro h
          have := congrArg String.data h
          simp at this
      · have hs : s = String.mk ("https://acme-v01.api.letsencrypt.org".data ++
            s.data.drop "https://acme-v01.api.letsencrypt.org".data.length) := by
          rw [← hasPrefix_eq_true _ _ h1]
        rw [hs, getSafeACMECAServer_v01]
        intro h
        have := congrArg String.data h
        simp at this

theorem getSafeACMECAServer_other_witness :
    (¬ ∃ r : String, "https://ca.example.com/directory" =
      "https://acme-v01.api.letsencrypt.org" ++ r) ∧
    (¬ ∃ r : String, "https://ca.example.com/directory" =
      "https://acme-staging.api.letsencrypt.org" ++ r) ∧
    getSafeACMECAServer "https://ca.example.com/directory" = "https://ca.example.com/directory" ∧
    (¬ ∃ r : String, "" = "https://acme-v01.api.letsencrypt.org" ++ r) ∧
    (¬ ∃ r : String, "" = "https://acme-staging.api.letsencrypt.org" ++ r) ∧
    getSafeACMECAServer "" = "https://acme-v02.api.letsencrypt.org/directory" := by
  have a1 : ¬ ∃ r : String, "https://ca.example.com/directory" =
      "https://acme-v01.api.letsencrypt.org" ++ r := by
    rw [← hasPrefix_iff]; decide
  have a2 : ¬ ∃ r : String, "https://ca.example.com/directory" =
      "https://acme-staging.api.letsencrypt.org" ++ r := by
    rw [← hasPrefix_iff]; decide
  have b1 : ¬ ∃ r : String, "" = "https://acme-v01.api.letsencrypt.org" ++ r := by
    rw [← hasPrefix_iff]; decide
  have b2 : ¬ ∃ r : String, "" = "https://acme-staging.api.letsencrypt.org" ++ r := by
    rw [← hasPrefix_iff]; decide
  exact ⟨a1, a2,
    ((getSafeACMECAServer_other "https://ca.example.com/directory").1 a1 a2).1 (by decide),
    b1, b2, ((getSafeACMECAServer_other "").1 b1 b2).2 rfl⟩

/-! ### The ACME legacy converter -/

/-- C20: for every legacy ACME block, each challenge of the result of `convertACMEChallenge`
is set if and only if the corresponding challenge of the input is set; a carried HTTP challenge
has the entry-point reference of the input, a carried DNS challenge has the provider and the
delay before check of the input, and a carried TLS challenge is the empty marker. -/
theorem convertACMEChallenge_challenges (a : ACME) :
    ((convertACMEChallenge a).HTTPChallenge.isSome = a.HTTPChallenge.isSome) ∧
    ((convertACMEChallenge a).DNSChallenge.isSome = a.DNSChallenge.isSome) ∧
    ((convertACMEChallenge a).TLSChallenge.isSome = a.TLSChallenge.isSome) ∧
    (∀ h, a.HTTPChallenge = some h →
      (convertACMEChallenge a).HTTPChallenge = some { EntryPoint := h.EntryPoint }) ∧
    (∀ d, a.DNSChallenge = some d →
      (convertACMEChallenge a).DNSChallenge =
        some { Provider := d.Provider, DelayBeforeCheck := d.DelayBeforeCheck }) ∧
    (∀ t, a.TLSChallenge = some t → (convertACMEChallenge a).TLSChallenge = some {}) := by
  rw [convertACMEChallenge_eq]
  refine ⟨by simp, by simp, by simp, ?_, ?_, ?_⟩
  · intro h hh
    simp [hh]
  · intro d hd
    simp [hd]
  · intro t ht
    simp [ht]

theorem convertACMEChallenge_challenges_witness :
    acmeDNSHTTP.HTTPChallenge = some { EntryPoint := "http" } ∧
    acmeDNSHTTP.DNSChallenge = some { Provider := "route53", DelayBeforeCheck := 5 } ∧
    acmeHTTPTLS.TLSChallenge = some {} ∧
    (convertACMEChallenge acmeDNSHTTP).HTTPChallenge = some { EntryPoint := "http" } ∧
    (convertACMEChallenge acmeDNSHTTP).DNSChallenge =
      some { Provider := "route53", DelayBeforeCheck := 5 } ∧
    (convertACMEChallenge acmeDNSHTTP).TLSChallenge.isSome = false ∧
    (convertACMEChallenge acmeHTTPTLS).TLSChallenge = some {} :=
  ⟨rfl, rfl, rfl,
    (convertACMEChallenge_challenges acmeDNSHTTP).2.2.2.1 _ rfl,
    (convertACMEChallenge_challenges acmeDNSHTTP).2.2.2.2.1 _ rfl,
    (convertACMEChallenge_challenges acmeDNSHTTP).2.2.1,
    (convertACMEChallenge_challenges acmeHTTPTLS).2.2.2.2.2 _ rfl⟩

/-! ### The flag value `DefaultEntryPoints` -/

theorem splitOnChar_ne_nil (sep : Char) (l : List Char) : splitOnChar sep l ≠ [] := by
  cases l with
  | nil => simp [splitOnChar]
  | cons c cs =>
    unfold splitOnChar
    split
    · simp
    · split <;> simp

theorem joinWithChar_cons_cons (sep c : Char) (piece : List Char) (pieces : List (List Char)) :
    joinWithChar sep ((c :: piece) :: pieces) = c :: joinWithChar sep (piece :: pieces) := by
  cases pieces <;> simp [joinWithChar]

theorem joinWithChar_splitOnChar (sep : Char) (l : List Char) :
    joinWithChar sep (splitOnChar sep l) = l := by
  induction l with
  | nil => rfl
  | cons c cs ih =>
    unfold splitOnChar
    by_cases hc : c = sep
    · rw [if_pos hc]
      cases hs : splitOnChar sep cs with
      | nil => exact absurd hs (splitOnChar_ne_nil sep cs)
      | cons piece pieces =>
        rw [hs] at ih
        simp [joinWithChar, ih, hc]
    · rw [if_neg hc]
      cases hs : splitOnChar sep cs with
      | nil => exact absurd hs (splitOnChar_ne_nil sep cs)
      | cons piece pieces =>
        rw [hs] at ih
        simp only [joinWithChar_cons_cons, ih]

theorem not_mem_of_mem_splitOnChar (sep : Char) (l piece : List Char)
    (h : piece ∈ splitOnChar sep l) : sep ∉ piece := by
  induction l generalizing piece with
  | nil =>
    simp only [splitOnChar, List.mem_singleton] at h
    subst h
    simp
  | cons c cs ih =>
    unfold splitOnChar at h
    by_cases hc : c = sep
    · rw [if_pos hc] at h
      rcases List.mem_cons.1 h with h | h
      · subst h; simp
      · exact ih piece h
    · rw [if_neg hc] at h
      cases hs : splitOnChar sep cs with
      | nil => exact absurd hs (splitOnChar_ne_nil sep cs)
      | cons first pieces =>
        rw [hs] at h ih
        rcases List.mem_cons.1 h with h | h
        · subst h
          have := ih first (List.mem_cons_self _ _)
          simp only [List.mem_cons, not_or]
          exact ⟨fun e => hc e.symm, this⟩
        · exact ih piece (List.mem_cons_of_mem _ h)

theorem foldl_append_singleton (l dep : List String) :
    l.foldl (fun d entrypoint => d ++ [entrypoint]) dep = dep ++ l := by
  induction l generalizing dep with
  | nil => simp
  | cons e l ih => simp [ih]

theorem DefaultEntryPoints_Set_eq (dep : DefaultEntryPoints) (value : String) :
    DefaultEntryPoints.Set dep value =
      (none, dep ++ (splitOnChar ',' value.data).map (fun piece => String.mk piece)) := by
  have hne : ¬ ((splitOnChar ',' value.data).map (fun piece => String.mk piece)).length = 0 := by
    rw [List.length_map, List.length_eq_zero]
    exact splitOnChar_ne_nil _ _
  unfold DefaultEntryPoints.Set
  simp only [hne, if_false, foldl_append_singleton]

/-- C21: for every string `v`, `Set(v)` returns no error on every list (splitting on ","
gives at least one piece, so the error branch is not taken); on the empty list `String()`
afterwards is exactly `v`; on every list `Set(v)` appends, after the existing elements and in
order, the pieces of `v` between its commas: pieces without a comma that joined with ","
give `v`. -/
theorem DefaultEntryPoints_Set_String_roundtrip (dep : DefaultEntryPoints) (v : String) :
    (DefaultEntryPoints.Set dep v).1 = none ∧
    (DefaultEntryPoints.Set [] v).1 = none ∧
    1 ≤ (DefaultEntryPoints.Set [] v).2.length ∧
    DefaultEntryPoints.String (DefaultEntryPoints.Set [] v).2 = v ∧
    (DefaultEntryPoints.Set dep v).2 = dep ++ (DefaultEntryPoints.Set [] v).2 ∧
    (∀ piece ∈ (DefaultEntryPoints.Set [] v).2, ',' ∉ piece.data) := by
  simp only [DefaultEntryPoints_Set_eq, List.nil_append, List.length_map, true_and]
  refine ⟨?_, ?_, ?_⟩
  · exact Nat.pos_of_ne_zero (fun h => splitOnChar_ne_nil _ _ (List.length_eq_zero.1 h))
  · unfold DefaultEntryPoints.String
    simp only [List.map_map, Function.comp_def, List.map_id', joinWithChar_splitOnChar]
  · intro piece hp
    obtain ⟨l, hl, rfl⟩ := List.mem_map.1 hp
    exact not_mem_of_mem_splitOnChar _ _ _ hl

/-- Evaluations of `Set` and `String`: the empty value, a value without a comma, a value with
empty pieces on a list that already has an element, and the join of an empty list. -/
theorem DefaultEntryPoints_Set_String_examples :
    DefaultEntryPoints.Set [] "" = (none, [""]) ∧
    DefaultEntryPoints.String [""] = "" ∧
    DefaultEntryPoints.Set [] "http" = (none, ["http"]) ∧
    DefaultEntryPoints.Set [] "http,https" = (none, ["http", "https"]) ∧
    DefaultEntryPoints.String ["http", "https"] = "http,https" ∧
    DefaultEntryPoints.Set ["web"] "http,,https," = (none, ["web", "http", "", "https", ""]) ∧
    DefaultEntryPoints.String [] = "" := by
  decide

end Configuration
